import Mathlib

set_option maxRecDepth 400000
set_option maxHeartbeats 4000000
set_option linter.unusedVariables false

/-
Verification of the image-comparison engine of baseline-cli
(src/utils/image_utils.py) against its specification.

The embedding models the Python functions `load_image`, `compare_images`
and `find_template` together with the library routines they call:

* `skimage.metrics.structural_similarity` with its default parameters for
  2-d uint8 input: `win_size = 7`, uniform (non-Gaussian) 7x7 windows with
  scipy's `reflect` boundary mode, `data_range = 255`, `K1 = 0.01`,
  `K2 = 0.03`, sample covariance normalisation `49/48`, and the scalar
  score obtained as the mean of the similarity map with a 3-pixel border
  cropped away.  `structural_similarity` raises `ValueError` when either
  image dimension is smaller than the 7x7 window.
* `cv2.threshold` with `THRESH_BINARY_INV | THRESH_OTSU` (Otsu's threshold
  computed exactly as in OpenCV's `getThreshVal_Otsu_8u`, including the
  FLT_EPSILON guard, followed by the inverted binarisation).
* `cv2.findContours` with `RETR_EXTERNAL` / `CHAIN_APPROX_SIMPLE`: outer
  borders of the 8-connected components of the nonzero pixels, followed
  over pixel centres clockwise (Moore border following, which coincides
  with the outer-border following of Suzuki-Abe for external contours).
* `cv2.contourArea`: Green's (shoelace) formula over the border polygon,
  absolute value.  For a solid axis-aligned `w x h` block this yields
  `(w-1)*(h-1)`.
* `cv2.boundingRect`, `cv2.rectangle`, `cv2.resize` (INTER_LINEAR with
  half-pixel centre alignment), `cv2.cvtColor` (BGR2GRAY with OpenCV's
  fixed-point coefficients), `cv2.matchTemplate` (TM_CCOEFF_NORMED) and
  `cv2.minMaxLoc`.

Floating-point arithmetic is idealised as exact rational arithmetic.
Because the `Rat` operations of the ambient library are `irreducible`,
all computation in this file goes through small wrappers (`qadd`, ...)
defined via `Rat.divInt`; each wrapper is proved equal to the
corresponding field operation, so theorems are stated over ordinary `ℚ`.
-/

/-! ## Exact rational arithmetic wrappers -/

/-- Addition on `ℚ` via `Rat.divInt` (kernel-computable). -/
def qadd (a b : ℚ) : ℚ := Rat.divInt (a.num * (b.den : ℤ) + b.num * (a.den : ℤ)) ((a.den : ℤ) * (b.den : ℤ))

/-- Multiplication on `ℚ` via `Rat.divInt`. -/
def qmul (a b : ℚ) : ℚ := Rat.divInt (a.num * b.num) ((a.den : ℤ) * (b.den : ℤ))

/-- Subtraction on `ℚ` via `Rat.divInt`. -/
def qsub (a b : ℚ) : ℚ := Rat.divInt (a.num * (b.den : ℤ) - b.num * (a.den : ℤ)) ((a.den : ℤ) * (b.den : ℤ))

/-- Division on `ℚ` via `Rat.divInt` (division by `0` yields `0`, as in Lean). -/
def qdiv (a b : ℚ) : ℚ := Rat.divInt (a.num * (b.den : ℤ)) ((a.den : ℤ) * b.num)

/-- Strict comparison on `ℚ` as a boolean. -/
def qlt (a b : ℚ) : Bool := Rat.blt a b

/-- Non-strict comparison on `ℚ` as a boolean. -/
def qle (a b : ℚ) : Bool := !(Rat.blt b a)

/-- Minimum of two rationals, computable form. -/
def qmin (a b : ℚ) : ℚ := if qle a b then a else b

/-- Maximum of two rationals, computable form. -/
def qmax (a b : ℚ) : ℚ := if qle a b then b else a

/-- Sum of a list of rationals. -/
def qsum (l : List ℚ) : ℚ := l.foldl qadd 0

/-! ## Images, the file system, and Python-level errors -/

/-- A BGR pixel as stored by OpenCV (`cv2.imread` yields 3-channel BGR). -/
structure Pix where
  b : ℕ
  g : ℕ
  r : ℕ
  deriving DecidableEq

/-- An image: a height, a width, and a pixel function (row, column). -/
structure Img (α : Type) where
  h : ℕ
  w : ℕ
  pix : ℕ → ℕ → α

/-- State of a path in the modelled file system.  `unreadable` is a file
that exists but cannot be opened for reading (`os.path.exists` is true,
`cv2.imread` returns `None`); `undecodable` is a readable file whose
contents are not a decodable image (`cv2.imread` also returns `None`). -/
inductive FileState where
  | absent
  | unreadable
  | undecodable
  | image (img : Img Pix)

/-- The modelled file system: contents by path. -/
def FS : Type := String → FileState

/-- Overwrite one path of the file system. -/
def updateFS (fs : FS) (p : String) (st : FileState) : FS :=
  fun q => if q = p then st else fs q

/-- The Python exceptions the modelled code can raise.  `fileNotFound` is
`FileNotFoundError`; `decodeFail` is the `ValueError` raised by
`load_image` when `cv2.imread` returns `None`; `shapeError` and
`winSizeError` are the `ValueError`s of `structural_similarity` (shape
mismatch, window larger than the image); `templateSizeError` is the
`cv2.error` of `matchTemplate` when the template exceeds the image. -/
inductive PyError where
  | fileNotFound
  | decodeFail
  | shapeError
  | winSizeError
  | templateSizeError
  deriving DecidableEq

/-- Embedding of `load_image`: raise `FileNotFoundError` when the path
does not exist, decode with `cv2.imread`, raise `ValueError` when the
result is `None`. -/
def load_image (fs : FS) (path : String) : Except PyError (Img Pix) :=
  match fs path with
  | .absent => .error .fileNotFound
  | .unreadable => .error .decodeFail
  | .undecodable => .error .decodeFail
  | .image img => .ok img

/-- OpenCV BGR-to-grayscale conversion in its fixed-point form:
`y = (b*1868 + g*9617 + r*4899 + 2^13) >> 14`. -/
def grayOfPix (p : Pix) : ℕ := (1868 * p.b + 9617 * p.g + 4899 * p.r + 8192) / 16384

/-- Embedding of `cv2.cvtColor(img, cv2.COLOR_BGR2GRAY)`. -/
def cvtColorGray (img : Img Pix) : Img ℕ :=
  { h := img.h, w := img.w, pix := fun i j => grayOfPix (img.pix i j) }

/-- Floor of a rational as an integer. -/
def ratFloor (q : ℚ) : ℤ := q.num.fdiv (q.den : ℤ)

/-- Round a nonnegative rational to the nearest natural (half up), used
for the interpolated pixel values of `cv2.resize`. -/
def ratRound (q : ℚ) : ℕ := (ratFloor (qadd q (Rat.divInt 1 2))).toNat

/-- Source coordinate of destination index `d` under OpenCV's
half-pixel-centre geometry, clamped below at `0`. -/
def srcCoord (d srcN dstN : ℕ) : ℚ :=
  qmax (Rat.divInt 0 1)
    (qsub (qdiv (qmul (qadd (Rat.divInt (d : ℤ) 1) (Rat.divInt 1 2)) (Rat.divInt (srcN : ℤ) 1))
      (Rat.divInt (dstN : ℤ) 1)) (Rat.divInt 1 2))

/-- One interpolated channel of `cv2.resize` (INTER_LINEAR): bilinear
interpolation between the four surrounding source pixels.  This is the
exact-rational idealisation of OpenCV's fixed-point interpolation; no
claim in this file depends on the interpolated values themselves. -/
def bilinearChan (v00 v01 v10 v11 : ℕ) (fy fx : ℚ) : ℕ :=
  ratRound (qadd
    (qmul (qsub 1 fy) (qadd (qmul (qsub 1 fx) (Rat.divInt (v00 : ℤ) 1)) (qmul fx (Rat.divInt (v01 : ℤ) 1))))
    (qmul fy (qadd (qmul (qsub 1 fx) (Rat.divInt (v10 : ℤ) 1)) (qmul fx (Rat.divInt (v11 : ℤ) 1)))))

/-- Embedding of `cv2.resize(img, (nw, nh))` with the default
INTER_LINEAR interpolation. -/
def cvResize (img : Img Pix) (nh nw : ℕ) : Img Pix where
  h := nh
  w := nw
  pix := fun i j =>
    let sy := srcCoord i img.h nh
    let sx := srcCoord j img.w nw
    let y0 := (ratFloor sy).toNat
    let x0 := (ratFloor sx).toNat
    let fy := qsub sy (Rat.divInt (y0 : ℤ) 1)
    let fx := qsub sx (Rat.divInt (x0 : ℤ) 1)
    let y1 := min (y0 + 1) (img.h - 1)
    let x1 := min (x0 + 1) (img.w - 1)
    let p00 := img.pix y0 x0
    let p01 := img.pix y0 x1
    let p10 := img.pix y1 x0
    let p11 := img.pix y1 x1
    ⟨bilinearChan p00.b p01.b p10.b p11.b fy fx,
     bilinearChan p00.g p01.g p10.g p11.g fy fx,
     bilinearChan p00.r p01.r p10.r p11.r fy fx⟩

/-! ## Structural similarity (skimage defaults for 2-d uint8 input) -/

/-- Index reflection of scipy's `reflect` boundary mode
(`d c b a | a b c d | d c b a`), one application. -/
def reflectIdx (n : ℕ) (i : ℤ) : ℕ :=
  if i < 0 then (-i - 1).toNat
  else if (n : ℤ) ≤ i then (2 * n - 1 - i).toNat
  else i.toNat

/-- The seven window offsets of the 7x7 uniform filter. -/
def winOffs : List ℤ := [-3, -2, -1, 0, 1, 2, 3]

/-- The 49 (reflected) pixel coordinates of the 7x7 window centred at
`(i, j)` in an `h x w` image. -/
def winCoords (h w i j : ℕ) : List (ℕ × ℕ) :=
  winOffs.flatMap (fun di => winOffs.map (fun dj =>
    (reflectIdx h ((i : ℤ) + di), reflectIdx w ((j : ℤ) + dj))))

/-- The five window sums used by SSIM: `Σx`, `Σy`, `Σx²`, `Σy²`, `Σxy`
over the 7x7 window. -/
structure WinSums where
  sx : ℕ
  sy : ℕ
  sxx : ℕ
  syy : ℕ
  sxy : ℕ

/-- Accumulate the five window sums in one pass over the window. -/
def winSums (g1 g2 : ℕ → ℕ → ℕ) (h w i j : ℕ) : WinSums :=
  (winCoords h w i j).foldl
    (fun acc p =>
      let x := g1 p.1 p.2
      let y := g2 p.1 p.2
      ⟨acc.sx + x, acc.sy + y, acc.sxx + x * x, acc.syy + y * y, acc.sxy + x * y⟩)
    ⟨0, 0, 0, 0, 0⟩

/-- Numerator of the pixelwise SSIM value, denominators cleared.  With
`ux = sx/49` etc., `C1 = (0.01*255)^2 = 2601/400` and
`C2 = (0.03*255)^2 = 23409/400`, the SSIM value is
`(2 ux uy + C1)(2 vxy + C2) / ((ux² + uy² + C1)(vx + vy + C2))` where
`vx = (49 sxx - sx²)/(48*49)` is the sample variance; multiplying the
first factors by `400*49²` and the second by `400*48*49` (the same
scalings appear in the denominator and cancel) gives the integer forms
used here. -/
def ssimNum (s : WinSums) : ℤ :=
  (800 * (s.sx : ℤ) * s.sy + 2601 * 2401) *
    (800 * (49 * (s.sxy : ℤ) - (s.sx : ℤ) * s.sy) + 23409 * 2352)

/-- Denominator of the pixelwise SSIM value, same scaling as `ssimNum`. -/
def ssimDen (s : WinSums) : ℤ :=
  (400 * ((s.sx : ℤ) * s.sx + (s.sy : ℤ) * s.sy) + 2601 * 2401) *
    (400 * ((49 * (s.sxx : ℤ) - (s.sx : ℤ) * s.sx) + (49 * (s.syy : ℤ) - (s.sy : ℤ) * s.sy)) + 23409 * 2352)

/-- The full SSIM map `S` of `structural_similarity(g1, g2, full=True)`,
as a rational-valued pixel function. -/
def ssimMap (g1 g2 : Img ℕ) : ℕ → ℕ → ℚ :=
  fun i j =>
    let s := winSums g1.pix g2.pix g1.h g1.w i j
    Rat.divInt (ssimNum s) (ssimDen s)

/-- The SSIM values of the score region: the map with a 3-pixel border
cropped on every side (`crop(S, pad)` with `pad = 3`). -/
def ssimCropList (g1 g2 : Img ℕ) : List ℚ :=
  (List.range (g1.h - 6)).flatMap (fun i =>
    (List.range (g1.w - 6)).map (fun j => ssimMap g1 g2 (i + 3) (j + 3)))

/-- The scalar SSIM score: mean of the cropped similarity map. -/
def ssimScore (g1 g2 : Img ℕ) : ℚ :=
  qdiv (qsum (ssimCropList g1 g2)) (Rat.divInt (((g1.h - 6) * (g1.w - 6) : ℕ) : ℤ) 1)

/-- Embedding of `skimage.metrics.structural_similarity(g1, g2, full=True)`
on uint8 grayscale input: checks shape equality, checks the image extent
against the 7x7 window (raising `ValueError` otherwise), and returns the
score together with the full similarity map. -/
def structural_similarity (g1 g2 : Img ℕ) : Except PyError (ℚ × (ℕ → ℕ → ℚ)) :=
  if g1.h ≠ g2.h ∨ g1.w ≠ g2.w then .error .shapeError
  else if g1.h < 7 ∨ g1.w < 7 then .error .winSizeError
  else .ok (ssimScore g1 g2, ssimMap g1 g2)

/-! ## The difference image and Otsu's threshold -/

/-- Conversion of a rational to uint8 exactly as numpy's
`.astype("uint8")` casts a float: truncation toward zero, then reduction
modulo 256. -/
def uint8OfRat (q : ℚ) : ℕ := ((q.num.tdiv (q.den : ℤ)).emod 256).toNat

/-- The scaled difference image `(diff * 255).astype("uint8")` as a grid
of rows. -/
def diffByteGrid (smap : ℕ → ℕ → ℚ) (h w : ℕ) : List (List ℕ) :=
  (List.range h).map (fun i => (List.range w).map (fun j =>
    uint8OfRat (qmul (smap i j) (Rat.divInt 255 1))))

/-- FLT_EPSILON, the guard constant of OpenCV's Otsu loop. -/
def fltEps : ℚ := Rat.divInt 1 8388608

/-- The running state of OpenCV's Otsu loop: class-1 mean, class-1
probability mass, best between-class variance, best threshold. -/
structure OtsuSt where
  mu1 : ℚ
  q1 : ℚ
  maxSigma : ℚ
  maxVal : ℕ
  deriving DecidableEq

/-- One iteration of OpenCV's `getThreshVal_Otsu_8u` loop, translated
statement by statement (`mu1 *= q1; q1 += p_i;` happen before the
FLT_EPSILON guard, so they persist on skipped iterations). -/
def otsuStep (cnt : ℕ → ℕ) (scale mu : ℚ) (st : OtsuSt) (i : ℕ) : OtsuSt :=
  let p := qmul (Rat.divInt (cnt i : ℤ) 1) scale
  let m1 := qmul st.mu1 st.q1
  let q1 := qadd st.q1 p
  let q2 := qsub 1 q1
  if qlt (qmin q1 q2) fltEps || qlt (qsub 1 fltEps) (qmax q1 q2) then
    ⟨m1, q1, st.maxSigma, st.maxVal⟩
  else
    let mu1 := qdiv (qadd m1 (qmul (Rat.divInt (i : ℤ) 1) p)) q1
    let mu2 := qdiv (qsub mu (qmul q1 mu1)) q2
    let dm := qsub mu1 mu2
    let sigma := qmul (qmul q1 q2) (qmul dm dm)
    if qlt st.maxSigma sigma then ⟨mu1, q1, sigma, i⟩ else ⟨mu1, q1, st.maxSigma, st.maxVal⟩

/-- The Otsu loop over all 256 bins. -/
def otsuFold (cnt : ℕ → ℕ) (scale mu : ℚ) : OtsuSt :=
  (List.range 256).foldl (otsuStep cnt scale mu) ⟨0, 0, 0, 0⟩

/-- The reciprocal of the pixel count (`scale = 1/size`). -/
def otsuScale (l : List ℕ) : ℚ := qdiv 1 (Rat.divInt (l.length : ℤ) 1)

/-- The global mean `mu = Σ i * h[i] * scale`. -/
def otsuMu (l : List ℕ) : ℚ :=
  qsum ((List.range 256).map (fun i =>
    qmul (Rat.divInt (i : ℤ) 1) (qmul (Rat.divInt (l.count i : ℤ) 1) (otsuScale l))))

/-- Otsu's threshold of a list of uint8 pixel values, exactly as computed
by OpenCV (`cv2.threshold` with `THRESH_OTSU`). -/
def otsuThreshold (l : List ℕ) : ℕ :=
  (otsuFold (fun i => l.count i) (otsuScale l) (otsuMu l)).maxVal

/-- The binarisation `THRESH_BINARY_INV` with maxval 255: pixels above
the threshold become 0, all others 255. -/
def threshBinaryInv (rows : List (List ℕ)) (t : ℕ) : List (List ℕ) :=
  rows.map (fun row => row.map (fun b => if b ≤ t then 255 else 0))

/-! ## Contours: 8-connected components and outer border following -/

/-- Cell access on a row-major grid, 0 outside. -/
def getCell (rows : List (List ℕ)) (i j : ℕ) : ℕ := (rows.getD i []).getD j 0

/-- Foreground test: nonzero pixels are foreground for `findContours`. -/
def fgAt (rows : List (List ℕ)) (p : ℕ × ℕ) : Bool := getCell rows p.1 p.2 != 0

/-- Visited-flag lookup (out-of-range cells count as visited). -/
def vGet (vis : List (List Bool)) (p : ℕ × ℕ) : Bool := (vis.getD p.1 []).getD p.2 true

/-- Mark a cell visited. -/
def vSet (vis : List (List Bool)) (p : ℕ × ℕ) : List (List Bool) :=
  vis.set p.1 ((vis.getD p.1 []).set p.2 true)

/-- The eight neighbour offsets (8-connectivity). -/
def nbrOffsets : List (ℤ × ℤ) := [(-1,-1),(-1,0),(-1,1),(0,-1),(0,1),(1,-1),(1,0),(1,1)]

/-- In-bounds neighbours of a cell. -/
def nbrCells (h w : ℕ) (p : ℕ × ℕ) : List (ℕ × ℕ) :=
  nbrOffsets.filterMap (fun d =>
    let ni := (p.1 : ℤ) + d.1
    let nj := (p.2 : ℤ) + d.2
    if 0 ≤ ni ∧ ni < (h : ℤ) ∧ 0 ≤ nj ∧ nj < (w : ℤ) then some (ni.toNat, nj.toNat) else none)

/-- Flood fill collecting one 8-connected foreground component.  Cells
are marked visited as they enter the work stack, so each cell is pushed
at most once and `h*w + 1` pops suffice. -/
def flood (rows : List (List ℕ)) (h w : ℕ) :
    ℕ → List (ℕ × ℕ) → List (List Bool) → List (ℕ × ℕ) → List (List Bool) × List (ℕ × ℕ)
  | 0, _, vis, acc => (vis, acc)
  | _ + 1, [], vis, acc => (vis, acc)
  | fuel + 1, p :: stack, vis, acc =>
    let fresh := (nbrCells h w p).filter (fun q => fgAt rows q && !(vGet vis q))
    let vis2 := fresh.foldl vSet vis
    flood rows h w fuel (fresh ++ stack) vis2 (p :: acc)

/-- All cells of an `h x w` grid in raster (row-major) order. -/
def rasterCells (h w : ℕ) : List (ℕ × ℕ) :=
  (List.range h).flatMap (fun i => (List.range w).map (fun j => (i, j)))

/-- The all-unvisited flag grid. -/
def initVis (h w : ℕ) : List (List Bool) :=
  (List.range h).map (fun _ => (List.range w).map (fun _ => false))

/-- The 8-connected components of the foreground, in raster order of
their topmost-leftmost cells (the order OpenCV's scan discovers outer
borders). -/
def componentsOf (rows : List (List ℕ)) (h w : ℕ) : List (List (ℕ × ℕ)) :=
  ((rasterCells h w).foldl (fun st p =>
    if fgAt rows p && !(vGet st.1 p) then
      let r := flood rows h w (h * w + 1) [p] (vSet st.1 p) []
      (r.1, st.2 ++ [r.2])
    else st) ((initVis h w), [])).2

/-- The eight directions in clockwise order starting from East, in
(row, column) steps with rows growing downward. -/
def dirs8 : List (ℤ × ℤ) := [(0,1),(1,1),(1,0),(1,-1),(0,-1),(-1,-1),(-1,0),(-1,1)]

/-- The cell one step from `p` in direction `d`. -/
def dirStep (p : ℕ × ℕ) (d : ℕ) : ℤ × ℤ :=
  let o := dirs8.getD d (0, 0)
  ((p.1 : ℤ) + o.1, (p.2 : ℤ) + o.2)

/-- Bounds test on signed coordinates. -/
def inGrid (h w : ℕ) (q : ℤ × ℤ) : Bool := 0 ≤ q.1 && q.1 < (h : ℤ) && 0 ≤ q.2 && q.2 < (w : ℤ)

/-- First foreground neighbour of `p`, scanning clockwise from the
direction after the backtrack direction `s`. -/
def findNext (rows : List (List ℕ)) (h w : ℕ) (p : ℕ × ℕ) (s : ℕ) : Option (ℕ × (ℕ × ℕ)) :=
  (List.range 8).findSome? (fun k =>
    let d := (s + 1 + k) % 8
    let q := dirStep p d
    if inGrid h w q ∧ fgAt rows (q.1.toNat, q.2.toNat) then some (d, (q.1.toNat, q.2.toNat)) else none)

/-- Clockwise Moore border following from the start pixel, stopping when
the walk returns to it (the masks produced by this pipeline have simple
solid borders, for which this stopping rule agrees with Suzuki-Abe). -/
def traceLoop (rows : List (List ℕ)) (h w : ℕ) (start : ℕ × ℕ) :
    ℕ → ℕ × ℕ → ℕ → List (ℕ × ℕ) → List (ℕ × ℕ)
  | 0, _, _, acc => acc.reverse
  | fuel + 1, cur, s, acc =>
    match findNext rows h w cur s with
    | none => acc.reverse
    | some (d, nxt) =>
      if nxt = start then acc.reverse
      else traceLoop rows h w start fuel nxt ((d + 4) % 8) (nxt :: acc)

/-- The outer border of the component whose topmost-leftmost pixel is
`start`, as the clockwise sequence of its boundary pixels. -/
def traceBoundary (rows : List (List ℕ)) (h w : ℕ) (start : ℕ × ℕ) : List (ℕ × ℕ) :=
  traceLoop rows h w start (4 * h * w + 8) start 4 [start]

/-- Topmost-leftmost cell of a component. -/
def topLeftCell (h w : ℕ) (comp : List (ℕ × ℕ)) : ℕ × ℕ :=
  comp.foldl (fun b p => if p.1 < b.1 ∨ (p.1 = b.1 ∧ p.2 < b.2) then p else b) (h, w)

/-- Embedding of `cv2.findContours(rows, RETR_EXTERNAL,
CHAIN_APPROX_SIMPLE)`: the outer borders of the 8-connected foreground
components.  (The Python line `contours[0] if len(contours) == 2 else
contours[1]` merely unpacks the version-dependent return tuple.) -/
def findContours (rows : List (List ℕ)) : List (List (ℕ × ℕ)) :=
  let h := rows.length
  let w := (rows.getD 0 []).length
  (componentsOf rows h w).map (fun comp => traceBoundary rows h w (topLeftCell h w comp))

/-- Embedding of `cv2.contourArea`: the absolute shoelace area of the
border polygon through pixel centres. -/
def contourArea (pts : List (ℕ × ℕ)) : ℚ :=
  let n := pts.length
  let s : ℤ := ((List.range n).map (fun k =>
    let p := pts.getD k (0, 0)
    let q := pts.getD ((k + 1) % n) (0, 0)
    (p.2 : ℤ) * (q.1 : ℤ) - (q.2 : ℤ) * (p.1 : ℤ))).sum
  Rat.divInt (s.natAbs : ℤ) 2

/-- A rectangle `(x, y, w, h)` in OpenCV's column-major corner form. -/
abbrev Rect : Type := ℕ × ℕ × ℕ × ℕ

/-- Embedding of `cv2.boundingRect` on a contour. -/
def boundingRect (pts : List (ℕ × ℕ)) : Rect :=
  match pts with
  | [] => (0, 0, 0, 0)
  | p :: rest =>
    let xmin := rest.foldl (fun b q => min b q.2) p.2
    let xmax := rest.foldl (fun b q => max b q.2) p.2
    let ymin := rest.foldl (fun b q => min b q.1) p.1
    let ymax := rest.foldl (fun b q => max b q.1) p.1
    (xmin, ymin, xmax - xmin + 1, ymax - ymin + 1)

/-- The rectangles drawn by the comparison loop: Otsu-threshold the
difference image, invert-binarise, find the external contours, keep
those of area strictly above 40, and take their bounding rectangles
(`for c in contours: if cv2.contourArea(c) > 40: cv2.boundingRect(c)`). -/
def rectsFromBytes (rows : List (List ℕ)) : List Rect :=
  let t := otsuThreshold rows.flatten
  let mask := threshBinaryInv rows t
  ((findContours mask).filter (fun c => qlt (Rat.divInt 40 1) (contourArea c))).map boundingRect

/-- Embedding of `cv2.rectangle(img, (x, y), (x+w, y+h), (0,0,255), 2)`:
paint a red outline band around the rectangle.  OpenCV's exact thick-line
rasterisation is approximated by a band of width 2 around the border; no
claim in this file depends on which pixels are painted. -/
def cvRectangle (img : Img Pix) (r : Rect) : Img Pix :=
  { img with pix := fun i j =>
      let x := r.1
      let y := r.2.1
      let w := r.2.2.1
      let hh := r.2.2.2
      let nearV := (x ≤ j + 1 && j ≤ x + w + 1) && (y ≤ i + 1 && i ≤ y + hh + 1)
      let inner := (x + 2 ≤ j && j + 2 ≤ x + w) && (y + 2 ≤ i && i + 2 ≤ y + hh)
      if nearV && !inner then ⟨0, 0, 255⟩ else img.pix i j }

/-! ## The comparison pipeline -/

/-- The result of a successful comparison: the similarity score, the
changed-region rectangles the loop draws, and the annotated image. -/
structure CmpOut where
  score : ℚ
  rects : List Rect
  annotated : Img Pix

/-- The second image after dimension reconciliation: resized to the first
image's height and width when the shapes differ (`if img1.shape !=
img2.shape: img2 = cv2.resize(img2, (img1.shape[1], img1.shape[0]))`). -/
def reconcile (img1 img2 : Img Pix) : Img Pix :=
  if img1.h = img2.h ∧ img1.w = img2.w then img2 else cvResize img2 img1.h img1.w

/-- The post-load body of `compare_images`: dimension reconciliation,
grayscale conversion, SSIM, difference image, thresholding, contours,
area filter, annotation, and the optional `cv2.imwrite`.  Returns the
file system after the call together with the result; on an error the
file system is returned unchanged (nothing has been written). -/
def compareCore (fs : FS) (outputPath : Option String) (img1 img2 : Img Pix) :
    FS × Except PyError CmpOut :=
  let img2r := reconcile img1 img2
  match structural_similarity (cvtColorGray img1) (cvtColorGray img2r) with
  | .error e => (fs, .error e)
  | .ok sm =>
    let rects := rectsFromBytes (diffByteGrid sm.2 img1.h img1.w)
    let annotated := rects.foldl cvRectangle img2r
    let fsOut := match outputPath with
      | some p => updateFS fs p (.image annotated)
      | none => fs
    (fsOut, .ok ⟨sm.1, rects, annotated⟩)

/-- Embedding of `compare_images(img1_path, img2_path, threshold,
output_path)`.  The `threshold` parameter is accepted and ignored, as in
the source, where it does not occur in the function body. -/
def compareRun (fs : FS) (img1Path img2Path : String) (threshold : ℚ)
    (outputPath : Option String) : FS × Except PyError CmpOut :=
  match load_image fs img1Path with
  | .error e => (fs, .error e)
  | .ok img1 =>
    match load_image fs img2Path with
    | .error e => (fs, .error e)
    | .ok img2 => compareCore fs outputPath img1 img2

/-- The `(score, difference image)` pair returned to Python callers. -/
def compare_images (fs : FS) (img1Path img2Path : String) (threshold : ℚ)
    (outputPath : Option String) : FS × Except PyError (ℚ × Img Pix) :=
  let r := compareRun fs img1Path img2Path threshold outputPath
  (r.1, r.2.map (fun o => (o.score, o.annotated)))

/-! ## Template matching -/

/-- Sum of a channel over the template grid. -/
def tplSum (t : Img Pix) (f : Pix → ℕ) : ℕ :=
  ((rasterCells t.h t.w).map (fun p => f (t.pix p.1 p.2))).sum

/-- Sum of a channel over the window of the screenshot at offset `(y, x)`. -/
def winSum (s : Img Pix) (th tw y x : ℕ) (f : Pix → ℕ) : ℕ :=
  ((rasterCells th tw).map (fun p => f (s.pix (y + p.1) (x + p.2)))).sum

/-- The three channel accessors of a BGR pixel. -/
def chans : List (Pix → ℕ) := [Pix.b, Pix.g, Pix.r]

/-- Numerator `Σ T' W'` of TM_CCOEFF_NORMED at offset `(y, x)`, scaled by
`n = th*tw`: with `n T' = n T - ΣT` per channel, this is
`Σ (n T - ΣT)(n W - ΣW)`; the scale factors cancel against the
denominator. -/
def tmNum (s t : Img Pix) (y x : ℕ) : ℤ :=
  (chans.map (fun f =>
    let st := (tplSum t f : ℤ)
    let sw := (winSum s t.h t.w y x f : ℤ)
    let n := ((t.h * t.w : ℕ) : ℤ)
    ((rasterCells t.h t.w).map (fun p =>
      (n * (f (t.pix p.1 p.2) : ℤ) - st) * (n * (f (s.pix (y + p.1) (x + p.2)) : ℤ) - sw))).sum)).sum

/-- Scaled `Σ T'²` of the centred template. -/
def tmDenT (t : Img Pix) : ℤ :=
  (chans.map (fun f =>
    let st := (tplSum t f : ℤ)
    let n := ((t.h * t.w : ℕ) : ℤ)
    ((rasterCells t.h t.w).map (fun p =>
      let v := n * (f (t.pix p.1 p.2) : ℤ) - st
      v * v)).sum)).sum

/-- Scaled `Σ W'²` of the centred window at offset `(y, x)`. -/
def tmDenW (s t : Img Pix) (y x : ℕ) : ℤ :=
  (chans.map (fun f =>
    let sw := (winSum s t.h t.w y x f : ℤ)
    let n := ((t.h * t.w : ℕ) : ℤ)
    ((rasterCells t.h t.w).map (fun p =>
      let v := n * (f (s.pix (y + p.1) (x + p.2)) : ℤ) - sw
      v * v)).sum)).sum

/-- The TM_CCOEFF_NORMED correlation at offset `(y, x)`, represented by
its signed square `r·|r| = num·|num| / (ΣT'² ΣW'²)`.  The map `r ↦ r·|r|`
is strictly increasing, so every comparison the code performs on the
correlation map corresponds exactly to the same comparison on this
representation (thresholds are squared likewise).  Degenerate windows
with zero variance make the denominator 0; the value is then 0 by the
`Rat.divInt _ 0 = 0` convention. -/
def tmCorrSq (s t : Img Pix) (y x : ℕ) : ℚ :=
  let nu := tmNum s t y x
  Rat.divInt (nu * (nu.natAbs : ℤ)) (tmDenT t * tmDenW s t y x)

/-- The threshold carried to the signed-square representation. -/
def thrSq (t : ℚ) : ℚ := qmul t (Rat.divInt (t.num.natAbs : ℤ) (t.den : ℤ))

/-- The valid template offsets inside the screenshot. -/
def tmOffsets (s t : Img Pix) : List (ℕ × ℕ) :=
  rasterCells (s.h - t.h + 1) (s.w - t.w + 1)

/-- Embedding of `cv2.minMaxLoc`'s maximum position: first position (in
raster order) whose value no later position strictly exceeds. -/
def argmaxPos (f : ℕ × ℕ → ℚ) : List (ℕ × ℕ) → ℕ × ℕ
  | [] => (0, 0)
  | p :: rest => rest.foldl (fun best q => if qlt (f best) (f q) then q else best) p

/-- Embedding of `find_template(screenshot_path, template_path,
threshold)`: load both images, match the template over the screenshot
(raising `cv2.error` when the template exceeds the screenshot), return
`None` when no position reaches the threshold (`np.where(result >=
threshold)` empty), and otherwise the rectangle at the global maximum of
the correlation map with the template's width and height. -/
def find_template (fs : FS) (screenshotPath templatePath : String) (threshold : ℚ) :
    Except PyError (Option Rect) :=
  match load_image fs screenshotPath with
  | .error e => .error e
  | .ok s =>
    match load_image fs templatePath with
    | .error e => .error e
    | .ok t =>
      if s.h < t.h ∨ s.w < t.w then .error .templateSizeError
      else
        let f : ℕ × ℕ → ℚ := fun p => tmCorrSq s t p.1 p.2
        if (tmOffsets s t).any (fun p => qle (thrSq threshold) (f p)) then
          let best := argmaxPos f (tmOffsets s t)
          .ok (some (best.2, best.1, t.w, t.h))
        else .ok none

/-! ## Concrete instance data -/

/-- A solid white BGR pixel. -/
def whitePix : Pix := ⟨255, 255, 255⟩

/-- A solid black BGR pixel. -/
def blackPix : Pix := ⟨0, 0, 0⟩

/-- A mid-gray BGR pixel. -/
def grayPix : Pix := ⟨128, 128, 128⟩

/-- A solid white square image of side `n`. -/
def whiteImg (n : ℕ) : Img Pix := ⟨n, n, fun _ _ => whitePix⟩

/-- A solid black 7x7 image. -/
def black7 : Img Pix := ⟨7, 7, fun _ _ => blackPix⟩

/-- A 16x16 white image with a single black 5x5 patch at rows and
columns 5..9: the "single altered 5x5-pixel patch" scenario. -/
def imgI5 : Img Pix :=
  ⟨16, 16, fun i j => if 5 ≤ i ∧ i < 10 ∧ 5 ≤ j ∧ j < 10 then blackPix else whitePix⟩

/-- A 2x2 black/white checkerboard (a non-constant template). -/
def checker2 : Img Pix := ⟨2, 2, fun i j => if i = j then blackPix else whitePix⟩

/-- A 3x3 gray image containing `checker2` at offset (1, 1). -/
def scr3 : Img Pix :=
  ⟨3, 3, fun i j => if 1 ≤ i ∧ 1 ≤ j then (if i = j then blackPix else whitePix) else grayPix⟩

/-- The file system used by all concrete instances. -/
def fsMain : FS := fun p =>
  if p = "white3.png" then .image (whiteImg 3)
  else if p = "white4.png" then .image (whiteImg 4)
  else if p = "white7.png" then .image (whiteImg 7)
  else if p = "white8.png" then .image (whiteImg 8)
  else if p = "black7.png" then .image black7
  else if p = "base16.png" then .image (whiteImg 16)
  else if p = "cur5.png" then .image imgI5
  else if p = "checker.png" then .image checker2
  else if p = "scr3.png" then .image scr3
  else if p = "locked.png" then .unreadable
  else .absent

/-- The default similarity threshold of the tool (0.95). -/
def thDefault : ℚ := Rat.divInt 19 20

/-- The changed-region rectangles of a comparison run, when it succeeded. -/
def rectsOfRun (r : FS × Except PyError CmpOut) : Option (List Rect) :=
  match r.2 with
  | .ok o => some o.rects
  | .error _ => none

/-- Whether a comparison run succeeded. -/
def isOkRun (r : FS × Except PyError CmpOut) : Bool :=
  match r.2 with
  | .ok _ => true
  | .error _ => false

/-- The similarity score of a comparison run, when it succeeded. -/
def scoreOfRun (r : FS × Except PyError CmpOut) : Option ℚ :=
  match r.2 with
  | .ok o => some o.score
  | .error _ => none

/-- The constant `h x w` grid with value `c`. -/
def constGrid (h w c : ℕ) : List (List ℕ) :=
  (List.range h).map (fun _ => (List.range w).map (fun _ => c))

/-- The all-zero 7x7 byte grid (the difference image of a solid white
against a solid black capture). -/
def zeros7Rows : List (List ℕ) := (List.range 7).map (fun _ => (List.range 7).map (fun _ => 0))


/-! ## Byte grids and Otsu data of the concrete instances -/

def bytesI5Rows : List (List ℕ) :=
  [[255, 255, 255, 255, 255, 255, 255, 255, 255, 255, 255, 255, 255, 255, 255, 255],
   [255, 255, 255, 255, 255, 255, 255, 255, 255, 255, 255, 255, 255, 255, 255, 255],
   [255, 255, 10, 5, 3, 2, 2, 2, 2, 2, 3, 5, 10, 255, 255, 255],
   [255, 255, 5, 2, 2, 1, 1, 1, 1, 1, 2, 2, 5, 255, 255, 255],
   [255, 255, 3, 2, 1, 1, 0, 0, 0, 1, 1, 2, 3, 255, 255, 255],
   [255, 255, 2, 1, 1, 0, 0, 0, 0, 0, 1, 1, 2, 255, 255, 255],
   [255, 255, 2, 1, 0, 0, 0, 0, 0, 0, 0, 1, 2, 255, 255, 255],
   [255, 255, 2, 1, 0, 0, 0, 0, 0, 0, 0, 1, 2, 255, 255, 255],
   [255, 255, 2, 1, 0, 0, 0, 0, 0, 0, 0, 1, 2, 255, 255, 255],
   [255, 255, 2, 1, 1, 0, 0, 0, 0, 0, 1, 1, 2, 255, 255, 255],
   [255, 255, 3, 2, 1, 1, 0, 0, 0, 1, 1, 2, 3, 255, 255, 255],
   [255, 255, 5, 2, 2, 1, 1, 1, 1, 1, 2, 2, 5, 255, 255, 255],
   [255, 255, 10, 5, 3, 2, 2, 2, 2, 2, 3, 5, 10, 255, 255, 255],
   [255, 255, 255, 255, 255, 255, 255, 255, 255, 255, 255, 255, 255, 255, 255, 255],
   [255, 255, 255, 255, 255, 255, 255, 255, 255, 255, 255, 255, 255, 255, 255, 255],
   [255, 255, 255, 255, 255, 255, 255, 255, 255, 255, 255, 255, 255, 255, 255, 255]]

def bytesI5Flat : List ℕ :=
  [255, 255, 255, 255, 255, 255, 255, 255, 255, 255, 255, 255, 255, 255, 255, 255, 255, 255, 255, 255, 255, 255, 255, 255, 255, 255, 255, 255, 255, 255, 255, 255, 255, 255, 10, 5, 3, 2, 2, 2, 2, 2, 3, 5, 10, 255, 255, 255, 255, 255, 5, 2, 2, 1, 1, 1, 1, 1, 2, 2, 5, 255, 255, 255, 255, 255, 3, 2, 1, 1, 0, 0, 0, 1, 1, 2, 3, 255, 255, 255, 255, 255, 2, 1, 1, 0, 0, 0, 0, 0, 1, 1, 2, 255, 255, 255, 255, 255, 2, 1, 0, 0, 0, 0, 0, 0, 0, 1, 2, 255, 255, 255, 255, 255, 2, 1, 0, 0, 0, 0, 0, 0, 0, 1, 2, 255, 255, 255, 255, 255, 2, 1, 0, 0, 0, 0, 0, 0, 0, 1, 2, 255, 255, 255, 255, 255, 2, 1, 1, 0, 0, 0, 0, 0, 1, 1, 2, 255, 255, 255, 255, 255, 3, 2, 1, 1, 0, 0, 0, 1, 1, 2, 3, 255, 255, 255, 255, 255, 5, 2, 2, 1, 1, 1, 1, 1, 2, 2, 5, 255, 255, 255, 255, 255, 10, 5, 3, 2, 2, 2, 2, 2, 3, 5, 10, 255, 255, 255, 255, 255, 255, 255, 255, 255, 255, 255, 255, 255, 255, 255, 255, 255, 255, 255, 255, 255, 255, 255, 255, 255, 255, 255, 255, 255, 255, 255, 255, 255, 255, 255, 255, 255, 255, 255, 255, 255, 255, 255, 255, 255, 255, 255, 255, 255, 255, 255]

-- otsu mu for bytesI5: 34625/256

def otsuMuI5 : ℚ := Rat.divInt 34625 256

/-! ## Bridge lemmas for the rational wrappers -/

theorem qadd_eq (a b : ℚ) : qadd a b = a + b := by
  rw [qadd]
  conv_rhs => rw [← Rat.num_divInt_den a, ← Rat.num_divInt_den b]
  rw [Rat.divInt_add_divInt _ _ (by exact_mod_cast a.den_nz) (by exact_mod_cast b.den_nz)]

theorem qmul_eq (a b : ℚ) : qmul a b = a * b := by
  rw [qmul]
  conv_rhs => rw [← Rat.num_divInt_den a, ← Rat.num_divInt_den b]
  rw [Rat.divInt_mul_divInt _ _ (by exact_mod_cast a.den_nz) (by exact_mod_cast b.den_nz)]

theorem qsub_eq (a b : ℚ) : qsub a b = a - b := by
  rw [qsub]
  conv_rhs => rw [← Rat.num_divInt_den a, ← Rat.num_divInt_den b]
  rw [Rat.divInt_sub_divInt _ _ (by exact_mod_cast a.den_nz) (by exact_mod_cast b.den_nz)]

theorem qdiv_eq (a b : ℚ) : qdiv a b = a / b := by
  rw [qdiv, Rat.div_def' a b]

theorem qle_iff (a b : ℚ) : qle a b = true ↔ a ≤ b := by
  show (!(Rat.blt b a)) = true ↔ _
  rw [Bool.not_eq_true']
  exact Iff.rfl

theorem qlt_iff (a b : ℚ) : qlt a b = true ↔ a < b := Iff.rfl

/-! ## Evaluation of the concrete instances -/

theorem otsuChunkI5_0 :
    (List.range' 0 16 1).foldl (otsuStep (fun i => bytesI5Flat.count i) (Rat.divInt 1 256) otsuMuI5) ⟨0, 0, 0, 0⟩ = ⟨Rat.divInt 200 121, Rat.divInt 121 256, Rat.divInt 126863418375 7929856, 10⟩ := by
  decide

theorem otsuChunkI5_1 :
    (List.range' 16 16 1).foldl (otsuStep (fun i => bytesI5Flat.count i) (Rat.divInt 1 256) otsuMuI5) ⟨Rat.divInt 200 121, Rat.divInt 121 256, Rat.divInt 126863418375 7929856, 10⟩ = ⟨Rat.divInt 200 121, Rat.divInt 121 256, Rat.divInt 126863418375 7929856, 10⟩ := by
  decide

theorem otsuChunkI5_2 :
    (List.range' 32 16 1).foldl (otsuStep (fun i => bytesI5Flat.count i) (Rat.divInt 1 256) otsuMuI5) ⟨Rat.divInt 200 121, Rat.divInt 121 256, Rat.divInt 126863418375 7929856, 10⟩ = ⟨Rat.divInt 200 121, Rat.divInt 121 256, Rat.divInt 126863418375 7929856, 10⟩ := by
  decide

theorem otsuChunkI5_3 :
    (List.range' 48 16 1).foldl (otsuStep (fun i => bytesI5Flat.count i) (Rat.divInt 1 256) otsuMuI5) ⟨Rat.divInt 200 121, Rat.divInt 121 256, Rat.divInt 126863418375 7929856, 10⟩ = ⟨Rat.divInt 200 121, Rat.divInt 121 256, Rat.divInt 126863418375 7929856, 10⟩ := by
  decide

theorem otsuChunkI5_4 :
    (List.range' 64 16 1).foldl (otsuStep (fun i => bytesI5Flat.count i) (Rat.divInt 1 256) otsuMuI5) ⟨Rat.divInt 200 121, Rat.divInt 121 256, Rat.divInt 126863418375 7929856, 10⟩ = ⟨Rat.divInt 200 121, Rat.divInt 121 256, Rat.divInt 126863418375 7929856, 10⟩ := by
  decide

theorem otsuChunkI5_5 :
    (List.range' 80 16 1).foldl (otsuStep (fun i => bytesI5Flat.count i) (Rat.divInt 1 256) otsuMuI5) ⟨Rat.divInt 200 121, Rat.divInt 121 256, Rat.divInt 126863418375 7929856, 10⟩ = ⟨Rat.divInt 200 121, Rat.divInt 121 256, Rat.divInt 126863418375 7929856, 10⟩ := by
  decide

theorem otsuChunkI5_6 :
    (List.range' 96 16 1).foldl (otsuStep (fun i => bytesI5Flat.count i) (Rat.divInt 1 256) otsuMuI5) ⟨Rat.divInt 200 121, Rat.divInt 121 256, Rat.divInt 126863418375 7929856, 10⟩ = ⟨Rat.divInt 200 121, Rat.divInt 121 256, Rat.divInt 126863418375 7929856, 10⟩ := by
  decide

theorem otsuChunkI5_7 :
    (List.range' 112 16 1).foldl (otsuStep (fun i => bytesI5Flat.count i) (Rat.divInt 1 256) otsuMuI5) ⟨Rat.divInt 200 121, Rat.divInt 121 256, Rat.divInt 126863418375 7929856, 10⟩ = ⟨Rat.divInt 200 121, Rat.divInt 121 256, Rat.divInt 126863418375 7929856, 10⟩ := by
  decide

theorem otsuChunkI5_8 :
    (List.range' 128 16 1).foldl (otsuStep (fun i => bytesI5Flat.count i) (Rat.divInt 1 256) otsuMuI5) ⟨Rat.divInt 200 121, Rat.divInt 121 256, Rat.divInt 126863418375 7929856, 10⟩ = ⟨Rat.divInt 200 121, Rat.divInt 121 256, Rat.divInt 126863418375 7929856, 10⟩ := by
  decide

theorem otsuChunkI5_9 :
    (List.range' 144 16 1).foldl (otsuStep (fun i => bytesI5Flat.count i) (Rat.divInt 1 256) otsuMuI5) ⟨Rat.divInt 200 121, Rat.divInt 121 256, Rat.divInt 126863418375 7929856, 10⟩ = ⟨Rat.divInt 200 121, Rat.divInt 121 256, Rat.divInt 126863418375 7929856, 10⟩ := by
  decide

theorem otsuChunkI5_10 :
    (List.range' 160 16 1).foldl (otsuStep (fun i => bytesI5Flat.count i) (Rat.divInt 1 256) otsuMuI5) ⟨Rat.divInt 200 121, Rat.divInt 121 256, Rat.divInt 126863418375 7929856, 10⟩ = ⟨Rat.divInt 200 121, Rat.divInt 121 256, Rat.divInt 126863418375 7929856, 10⟩ := by
  decide

theorem otsuChunkI5_11 :
    (List.range' 176 16 1).foldl (otsuStep (fun i => bytesI5Flat.count i) (Rat.divInt 1 256) otsuMuI5) ⟨Rat.divInt 200 121, Rat.divInt 121 256, Rat.divInt 126863418375 7929856, 10⟩ = ⟨Rat.divInt 200 121, Rat.divInt 121 256, Rat.divInt 126863418375 7929856, 10⟩ := by
  decide

theorem otsuChunkI5_12 :
    (List.range' 192 16 1).foldl (otsuStep (fun i => bytesI5Flat.count i) (Rat.divInt 1 256) otsuMuI5) ⟨Rat.divInt 200 121, Rat.divInt 121 256, Rat.divInt 126863418375 7929856, 10⟩ = ⟨Rat.divInt 200 121, Rat.divInt 121 256, Rat.divInt 126863418375 7929856, 10⟩ := by
  decide

theorem otsuChunkI5_13 :
    (List.range' 208 16 1).foldl (otsuStep (fun i => bytesI5Flat.count i) (Rat.divInt 1 256) otsuMuI5) ⟨Rat.divInt 200 121, Rat.divInt 121 256, Rat.divInt 126863418375 7929856, 10⟩ = ⟨Rat.divInt 200 121, Rat.divInt 121 256, Rat.divInt 126863418375 7929856, 10⟩ := by
  decide

theorem otsuChunkI5_14 :
    (List.range' 224 16 1).foldl (otsuStep (fun i => bytesI5Flat.count i) (Rat.divInt 1 256) otsuMuI5) ⟨Rat.divInt 200 121, Rat.divInt 121 256, Rat.divInt 126863418375 7929856, 10⟩ = ⟨Rat.divInt 200 121, Rat.divInt 121 256, Rat.divInt 126863418375 7929856, 10⟩ := by
  decide

theorem otsuChunkI5_15 :
    (List.range' 240 16 1).foldl (otsuStep (fun i => bytesI5Flat.count i) (Rat.divInt 1 256) otsuMuI5) ⟨Rat.divInt 200 121, Rat.divInt 121 256, Rat.divInt 126863418375 7929856, 10⟩ = ⟨Rat.divInt 25 32, Rat.divInt 1 1, Rat.divInt 126863418375 7929856, 10⟩ := by
  decide


theorem otsuAccI5_1 :
    List.foldl (otsuStep (fun i => bytesI5Flat.count i) (Rat.divInt 1 256) otsuMuI5) ⟨0, 0, 0, 0⟩ (List.range' 0 32 1) = ⟨Rat.divInt 200 121, Rat.divInt 121 256, Rat.divInt 126863418375 7929856, 10⟩ := by
  rw [show List.range' 0 32 1 = List.range' 0 16 1 ++ List.range' 16 16 1 from by decide,
    List.foldl_append, otsuChunkI5_0, otsuChunkI5_1]

theorem otsuAccI5_2 :
    List.foldl (otsuStep (fun i => bytesI5Flat.count i) (Rat.divInt 1 256) otsuMuI5) ⟨0, 0, 0, 0⟩ (List.range' 0 48 1) = ⟨Rat.divInt 200 121, Rat.divInt 121 256, Rat.divInt 126863418375 7929856, 10⟩ := by
  rw [show List.range' 0 48 1 = List.range' 0 32 1 ++ List.range' 32 16 1 from by decide,
    List.foldl_append, otsuAccI5_1, otsuChunkI5_2]

theorem otsuAccI5_3 :
    List.foldl (otsuStep (fun i => bytesI5Flat.count i) (Rat.divInt 1 256) otsuMuI5) ⟨0, 0, 0, 0⟩ (List.range' 0 64 1) = ⟨Rat.divInt 200 121, Rat.divInt 121 256, Rat.divInt 126863418375 7929856, 10⟩ := by
  rw [show List.range' 0 64 1 = List.range' 0 48 1 ++ List.range' 48 16 1 from by decide,
    List.foldl_append, otsuAccI5_2, otsuChunkI5_3]

theorem otsuAccI5_4 :
    List.foldl (otsuStep (fun i => bytesI5Flat.count i) (Rat.divInt 1 256) otsuMuI5) ⟨0, 0, 0, 0⟩ (List.range' 0 80 1) = ⟨Rat.divInt 200 121, Rat.divInt 121 256, Rat.divInt 126863418375 7929856, 10⟩ := by
  rw [show List.range' 0 80 1 = List.range' 0 64 1 ++ List.range' 64 16 1 from by decide,
    List.foldl_append, otsuAccI5_3, otsuChunkI5_4]

theorem otsuAccI5_5 :
    List.foldl (otsuStep (fun i => bytesI5Flat.count i) (Rat.divInt 1 256) otsuMuI5) ⟨0, 0, 0, 0⟩ (List.range' 0 96 1) = ⟨Rat.divInt 200 121, Rat.divInt 121 256, Rat.divInt 126863418375 7929856, 10⟩ := by
  rw [show List.range' 0 96 1 = List.range' 0 80 1 ++ List.range' 80 16 1 from by decide,
    List.foldl_append, otsuAccI5_4, otsuChunkI5_5]

theorem otsuAccI5_6 :
    List.foldl (otsuStep (fun i => bytesI5Flat.count i) (Rat.divInt 1 256) otsuMuI5) ⟨0, 0, 0, 0⟩ (List.range' 0 112 1) = ⟨Rat.divInt 200 121, Rat.divInt 121 256, Rat.divInt 126863418375 7929856, 10⟩ := by
  rw [show List.range' 0 112 1 = List.range' 0 96 1 ++ List.range' 96 16 1 from by decide,
    List.foldl_append, otsuAccI5_5, otsuChunkI5_6]

theorem otsuAccI5_7 :
    List.foldl (otsuStep (fun i => bytesI5Flat.count i) (Rat.divInt 1 256) otsuMuI5) ⟨0, 0, 0, 0⟩ (List.range' 0 128 1) = ⟨Rat.divInt 200 121, Rat.divInt 121 256, Rat.divInt 126863418375 7929856, 10⟩ := by
  rw [show List.range' 0 128 1 = List.range' 0 112 1 ++ List.range' 112 16 1 from by decide,
    List.foldl_append, otsuAccI5_6, otsuChunkI5_7]

theorem otsuAccI5_8 :
    List.foldl (otsuStep (fun i => bytesI5Flat.count i) (Rat.divInt 1 256) otsuMuI5) ⟨0, 0, 0, 0⟩ (List.range' 0 144 1) = ⟨Rat.divInt 200 121, Rat.divInt 121 256, Rat.divInt 126863418375 7929856, 10⟩ := by
  rw [show List.range' 0 144 1 = List.range' 0 128 1 ++ List.range' 128 16 1 from by decide,
    List.foldl_append, otsuAccI5_7, otsuChunkI5_8]

theorem otsuAccI5_9 :
    List.foldl (otsuStep (fun i => bytesI5Flat.count i) (Rat.divInt 1 256) otsuMuI5) ⟨0, 0, 0, 0⟩ (List.range' 0 160 1) = ⟨Rat.divInt 200 121, Rat.divInt 121 256, Rat.divInt 126863418375 7929856, 10⟩ := by
  rw [show List.range' 0 160 1 = List.range' 0 144 1 ++ List.range' 144 16 1 from by decide,
    List.foldl_append, otsuAccI5_8, otsuChunkI5_9]

theorem otsuAccI5_10 :
    List.foldl (otsuStep (fun i => bytesI5Flat.count i) (Rat.divInt 1 256) otsuMuI5) ⟨0, 0, 0, 0⟩ (List.range' 0 176 1) = ⟨Rat.divInt 200 121, Rat.divInt 121 256, Rat.divInt 126863418375 7929856, 10⟩ := by
  rw [show List.range' 0 176 1 = List.range' 0 160 1 ++ List.range' 160 16 1 from by decide,
    List.foldl_append, otsuAccI5_9, otsuChunkI5_10]

theorem otsuAccI5_11 :
    List.foldl (otsuStep (fun i => bytesI5Flat.count i) (Rat.divInt 1 256) otsuMuI5) ⟨0, 0, 0, 0⟩ (List.range' 0 192 1) = ⟨Rat.divInt 200 121, Rat.divInt 121 256, Rat.divInt 126863418375 7929856, 10⟩ := by
  rw [show List.range' 0 192 1 = List.range' 0 176 1 ++ List.range' 176 16 1 from by decide,
    List.foldl_append, otsuAccI5_10, otsuChunkI5_11]

theorem otsuAccI5_12 :
    List.foldl (otsuStep (fun i => bytesI5Flat.count i) (Rat.divInt 1 256) otsuMuI5) ⟨0, 0, 0, 0⟩ (List.range' 0 208 1) = ⟨Rat.divInt 200 121, Rat.divInt 121 256, Rat.divInt 126863418375 7929856, 10⟩ := by
  rw [show List.range' 0 208 1 = List.range' 0 192 1 ++ List.range' 192 16 1 from by decide,
    List.foldl_append, otsuAccI5_11, otsuChunkI5_12]

theorem otsuAccI5_13 :
    List.foldl (otsuStep (fun i => bytesI5Flat.count i) (Rat.divInt 1 256) otsuMuI5) ⟨0, 0, 0, 0⟩ (List.range' 0 224 1) = ⟨Rat.divInt 200 121, Rat.divInt 121 256, Rat.divInt 126863418375 7929856, 10⟩ := by
  rw [show List.range' 0 224 1 = List.range' 0 208 1 ++ List.range' 208 16 1 from by decide,
    List.foldl_append, otsuAccI5_12, otsuChunkI5_13]

theorem otsuAccI5_14 :
    List.foldl (otsuStep (fun i => bytesI5Flat.count i) (Rat.divInt 1 256) otsuMuI5) ⟨0, 0, 0, 0⟩ (List.range' 0 240 1) = ⟨Rat.divInt 200 121, Rat.divInt 121 256, Rat.divInt 126863418375 7929856, 10⟩ := by
  rw [show List.range' 0 240 1 = List.range' 0 224 1 ++ List.range' 224 16 1 from by decide,
    List.foldl_append, otsuAccI5_13, otsuChunkI5_14]

theorem diffBytesI5 :
    diffByteGrid (ssimMap (cvtColorGray (whiteImg 16)) (cvtColorGray imgI5)) 16 16 = bytesI5Rows := by
  decide

theorem diffBytesBW :
    diffByteGrid (ssimMap (cvtColorGray (whiteImg 7)) (cvtColorGray black7)) 7 7 = zeros7Rows := by
  decide


theorem otsuThreshold_def (l : List ℕ) :
    otsuThreshold l = OtsuSt.maxVal (otsuFold (fun i => l.count i) (otsuScale l) (otsuMu l)) :=
  rfl

theorem rectsFromBytes_def (rows : List (List ℕ)) :
    rectsFromBytes rows =
      ((findContours (threshBinaryInv rows (otsuThreshold rows.flatten))).filter
        (fun c => qlt (Rat.divInt 40 1) (contourArea c))).map boundingRect :=
  rfl

theorem rangeSplit240 : List.range' 0 256 1 = List.range' 0 240 1 ++ List.range' 240 16 1 := by decide

theorem otsuScaleI5eq : otsuScale bytesI5Flat = Rat.divInt 1 256 := by decide

theorem otsuMuI5eq : otsuMu bytesI5Flat = otsuMuI5 := by decide

theorem otsuStI5 :
    otsuFold (fun i => bytesI5Flat.count i) (otsuScale bytesI5Flat) (otsuMu bytesI5Flat) = ⟨Rat.divInt 25 32, Rat.divInt 1 1, Rat.divInt 126863418375 7929856, 10⟩ := by
  rw [otsuScaleI5eq, otsuMuI5eq]
  show List.foldl (otsuStep (fun i => bytesI5Flat.count i) (Rat.divInt 1 256) otsuMuI5)
      ⟨0, 0, 0, 0⟩ (List.range 256) = ⟨Rat.divInt 25 32, Rat.divInt 1 1, Rat.divInt 126863418375 7929856, 10⟩
  rw [List.range_eq_range', rangeSplit240, List.foldl_append, otsuAccI5_14, otsuChunkI5_15]

theorem otsuMaxI5 :
    OtsuSt.maxVal (otsuFold (fun i => bytesI5Flat.count i) (otsuScale bytesI5Flat) (otsuMu bytesI5Flat)) = 10 :=
  congrArg OtsuSt.maxVal otsuStI5

theorem otsuI5val : otsuThreshold bytesI5Flat = 10 :=
  (otsuThreshold_def bytesI5Flat).trans otsuMaxI5

theorem flatI5eq : bytesI5Rows.flatten = bytesI5Flat := by decide

theorem rectsI5val : rectsFromBytes bytesI5Rows = [(2, 2, 11, 11)] := by
  rw [rectsFromBytes_def, flatI5eq, otsuI5val]
  decide

/-! ## General lemmas: dimension reconciliation and the success path -/

theorem reconcile_h (img1 img2 : Img Pix) : (reconcile img1 img2).h = img1.h := by
  unfold reconcile
  by_cases hc : img1.h = img2.h ∧ img1.w = img2.w
  · rw [if_pos hc]
    exact hc.1.symm
  · rw [if_neg hc]
    rfl

theorem reconcile_w (img1 img2 : Img Pix) : (reconcile img1 img2).w = img1.w := by
  unfold reconcile
  by_cases hc : img1.h = img2.h ∧ img1.w = img2.w
  · rw [if_pos hc]
    exact hc.2.symm
  · rw [if_neg hc]
    rfl

theorem structural_similarity_ok (g1 g2 : Img ℕ) (hsh : g1.h = g2.h) (hsw : g1.w = g2.w)
    (hh : 7 ≤ g1.h) (hw : 7 ≤ g1.w) :
    structural_similarity g1 g2 = .ok (ssimScore g1 g2, ssimMap g1 g2) := by
  have h1 : ¬(g1.h ≠ g2.h ∨ g1.w ≠ g2.w) := by
    rw [not_or]
    exact ⟨fun h => h hsh, fun h => h hsw⟩
  have h2 : ¬(g1.h < 7 ∨ g1.w < 7) := by
    rw [not_or]
    exact ⟨Nat.not_lt.mpr hh, Nat.not_lt.mpr hw⟩
  unfold structural_similarity
  rw [if_neg h1, if_neg h2]

theorem compareCore_spec (fs : FS) (out : Option String) (img1 img2 : Img Pix)
    (hh : 7 ≤ img1.h) (hw : 7 ≤ img1.w) :
    compareCore fs out img1 img2 =
      ((match out with
        | some p => updateFS fs p (.image
            ((rectsFromBytes (diffByteGrid
                (ssimMap (cvtColorGray img1) (cvtColorGray (reconcile img1 img2)))
                img1.h img1.w)).foldl cvRectangle (reconcile img1 img2)))
        | none => fs),
       .ok ⟨ssimScore (cvtColorGray img1) (cvtColorGray (reconcile img1 img2)),
            rectsFromBytes (diffByteGrid
              (ssimMap (cvtColorGray img1) (cvtColorGray (reconcile img1 img2)))
              img1.h img1.w),
            (rectsFromBytes (diffByteGrid
                (ssimMap (cvtColorGray img1) (cvtColorGray (reconcile img1 img2)))
                img1.h img1.w)).foldl cvRectangle (reconcile img1 img2)⟩) := by
  have hss := structural_similarity_ok (cvtColorGray img1) (cvtColorGray (reconcile img1 img2))
    (show img1.h = (reconcile img1 img2).h from (reconcile_h img1 img2).symm)
    (show img1.w = (reconcile img1 img2).w from (reconcile_w img1 img2).symm)
    hh hw
  simp only [compareCore]
  rw [hss]

/-! ## General lemmas: constant grids -/

theorem constGrid_eq (h w c : ℕ) : constGrid h w c = List.replicate h (List.replicate w c) := by
  unfold constGrid
  rw [List.map_const', List.map_const', List.length_range, List.length_range]

theorem flatten_constGrid (h w c : ℕ) : (constGrid h w c).flatten = List.replicate (h * w) c := by
  rw [constGrid_eq, List.flatten_replicate_replicate]

theorem getCell_zero_of (rows : List (List ℕ)) (hz : ∀ r ∈ rows, ∀ x ∈ r, x = 0) (i j : ℕ) :
    getCell rows i j = 0 := by
  unfold getCell
  rw [List.getD_eq_getElem?_getD, List.getD_eq_getElem?_getD]
  rcases h1 : rows[i]? with _ | r
  · simp [h1]
  · simp only [h1, Option.getD_some]
    rcases h2 : r[j]? with _ | x
    · simp [h2]
    · simp only [h2, Option.getD_some]
      exact hz r (List.getElem?_mem h1) x (List.getElem?_mem h2)

theorem getCell_constGrid_zero (h w i j : ℕ) : getCell (constGrid h w 0) i j = 0 := by
  rw [constGrid_eq]
  exact getCell_zero_of _ (fun r hr x hx => by
    rw [List.eq_of_mem_replicate hr] at hx
    exact List.eq_of_mem_replicate hx) i j

theorem fgAt_constGrid_zero (h w : ℕ) (p : ℕ × ℕ) : fgAt (constGrid h w 0) p = false := by
  unfold fgAt
  rw [getCell_constGrid_zero]
  rfl

theorem threshBinaryInv_constGrid (h w c t : ℕ) :
    threshBinaryInv (constGrid h w c) t = constGrid h w (if c ≤ t then 255 else 0) := by
  unfold threshBinaryInv constGrid
  rw [List.map_map]
  refine List.map_congr_left (fun x _ => ?_)
  rw [Function.comp_apply, List.map_map]
  rfl

theorem foldl_self {α β : Type} (l : List β) (s : α) : l.foldl (fun a _ => a) s = s := by
  induction l generalizing s with
  | nil => rfl
  | cons x t ih =>
    rw [List.foldl_cons]
    exact ih s

theorem componentsOf_zero (rows : List (List ℕ)) (h w : ℕ)
    (hz : ∀ p, fgAt rows p = false) : componentsOf rows h w = [] := by
  simp only [componentsOf, hz, Bool.false_and, Bool.false_eq_true, if_false]
  rw [foldl_self]

theorem findContours_constGrid_zero (h w : ℕ) : findContours (constGrid h w 0) = [] := by
  simp only [findContours]
  rw [componentsOf_zero _ _ _ (fgAt_constGrid_zero h w)]
  rfl

/-! ## General lemmas: Otsu's threshold on constant data -/

theorem qmul_zero_any (b : ℚ) : qmul 0 b = 0 := by
  rw [qmul_eq, zero_mul]

theorem otsuStep_zeroA (cnt : ℕ → ℕ) (scale mu : ℚ) (s : ℚ) (v i : ℕ) (hc : cnt i = 0) :
    otsuStep cnt scale mu ⟨0, 0, s, v⟩ i = ⟨0, 0, s, v⟩ := by
  simp only [otsuStep, hc, Nat.cast_zero]
  rw [show Rat.divInt 0 1 = (0:ℚ) from by decide, qmul_zero_any]
  rw [show qadd (0:ℚ) 0 = 0 from by decide, show qmul (0:ℚ) 0 = 0 from by decide,
      show qsub 1 (0:ℚ) = 1 from by decide]
  rw [if_pos (by decide)]

theorem otsuStep_zeroB (cnt : ℕ → ℕ) (scale mu : ℚ) (s : ℚ) (v i : ℕ) (hc : cnt i = 0) :
    otsuStep cnt scale mu ⟨0, 1, s, v⟩ i = ⟨0, 1, s, v⟩ := by
  simp only [otsuStep, hc, Nat.cast_zero]
  rw [show Rat.divInt 0 1 = (0:ℚ) from by decide, qmul_zero_any]
  rw [show qadd (1:ℚ) 0 = 1 from by decide, show qmul (0:ℚ) 1 = 0 from by decide,
      show qsub 1 (1:ℚ) = 0 from by decide]
  rw [if_pos (by decide)]

theorem otsuFoldA (cnt : ℕ → ℕ) (scale mu : ℚ) (s : ℚ) (v : ℕ) (l : List ℕ) :
    (∀ i ∈ l, cnt i = 0) →
      l.foldl (otsuStep cnt scale mu) ⟨0, 0, s, v⟩ = ⟨0, 0, s, v⟩ := by
  induction l with
  | nil => intro _; rfl
  | cons x t ih =>
    intro hl
    rw [List.foldl_cons, otsuStep_zeroA cnt scale mu s v x (hl x (by simp))]
    exact ih (fun i hi => hl i (by simp [hi]))

theorem otsuFoldB (cnt : ℕ → ℕ) (scale mu : ℚ) (s : ℚ) (v : ℕ) (l : List ℕ) :
    (∀ i ∈ l, cnt i = 0) →
      l.foldl (otsuStep cnt scale mu) ⟨0, 1, s, v⟩ = ⟨0, 1, s, v⟩ := by
  induction l with
  | nil => intro _; rfl
  | cons x t ih =>
    intro hl
    rw [List.foldl_cons, otsuStep_zeroB cnt scale mu s v x (hl x (by simp))]
    exact ih (fun i hi => hl i (by simp [hi]))

theorem castRep (m : ℕ) : Rat.divInt ((m : ℕ) : ℤ) 1 = ((m : ℕ) : ℚ) := by
  rw [Rat.divInt_eq_div, Int.cast_one, div_one, Int.cast_natCast]

theorem otsuRep255 (n : ℕ) : otsuThreshold (List.replicate n 255) = 0 := by
  unfold otsuThreshold otsuFold
  rw [show (256 : ℕ) = 255 + 1 from rfl, List.range_succ, List.foldl_append]
  have hz : ∀ i ∈ List.range 255, (List.replicate n 255).count i = 0 := by
    intro i hi
    have h1 : i < 255 := List.mem_range.mp hi
    rw [List.count_replicate, if_neg]
    simp only [beq_iff_eq]
    omega
  rw [otsuFoldA _ _ _ 0 0 (List.range 255) hz]
  cases n with
  | zero =>
    rw [List.foldl_cons, List.foldl_nil,
      otsuStep_zeroA _ _ _ _ _ 255 (by simp [List.count_replicate])]
  | succ m =>
    have hcnt : (List.replicate (m + 1) 255).count 255 = m + 1 := by
      simp [List.count_replicate]
    have hlen : (List.replicate (m + 1) 255).length = m + 1 := by simp
    have hp : qmul (Rat.divInt (((List.replicate (m + 1) 255).count 255 : ℕ) : ℤ) 1)
        (otsuScale (List.replicate (m + 1) 255)) = 1 := by
      unfold otsuScale
      rw [hcnt, hlen, qmul_eq, qdiv_eq, castRep]
      exact mul_one_div_cancel (Nat.cast_ne_zero.mpr (Nat.succ_ne_zero m))
    rw [List.foldl_cons, List.foldl_nil]
    simp only [otsuStep, hp]
    rw [show qmul (0:ℚ) 0 = 0 from by decide, show qadd (0:ℚ) 1 = 1 from by decide,
        show qsub 1 (1:ℚ) = 0 from by decide]
    rw [if_pos (by decide)]

theorem otsuRep0 (n : ℕ) : otsuThreshold (List.replicate n 0) = 0 := by
  unfold otsuThreshold otsuFold
  rw [List.range_eq_range', show List.range' 0 256 = 0 :: List.range' 1 255 from by decide,
    List.foldl_cons]
  have hz : ∀ i ∈ List.range' 1 255, (List.replicate n 0).count i = 0 := by
    intro i hi
    have h1 : 1 ≤ i ∧ i < 256 := by
      have := List.mem_range'_1.mp hi
      omega
    rw [List.count_replicate, if_neg]
    simp only [beq_iff_eq]
    omega
  cases n with
  | zero =>
    rw [otsuStep_zeroA _ _ _ _ _ 0 (by simp [List.count_replicate])]
    rw [otsuFoldA _ _ _ 0 0 _ hz]
  | succ m =>
    have hcnt : (List.replicate (m + 1) 0).count 0 = m + 1 := by
      simp [List.count_replicate]
    have hlen : (List.replicate (m + 1) 0).length = m + 1 := by simp
    have hp : qmul (Rat.divInt (((List.replicate (m + 1) 0).count 0 : ℕ) : ℤ) 1)
        (otsuScale (List.replicate (m + 1) 0)) = 1 := by
      unfold otsuScale
      rw [hcnt, hlen, qmul_eq, qdiv_eq, castRep]
      exact mul_one_div_cancel (Nat.cast_ne_zero.mpr (Nat.succ_ne_zero m))
    have hstep : otsuStep (fun i => (List.replicate (m + 1) 0).count i)
        (otsuScale (List.replicate (m + 1) 0)) (otsuMu (List.replicate (m + 1) 0))
        ⟨0, 0, 0, 0⟩ 0 = ⟨0, 1, 0, 0⟩ := by
      simp only [otsuStep, hp]
      rw [show qmul (0:ℚ) 0 = 0 from by decide, show qadd (0:ℚ) 1 = 1 from by decide,
          show qsub 1 (1:ℚ) = 0 from by decide]
      rw [if_pos (by decide)]
    rw [hstep, otsuFoldB _ _ _ 0 0 _ hz]

/-! ## General lemmas: rational sums -/

theorem qsum_eq (l : List ℚ) : qsum l = l.sum := by
  unfold qsum
  suffices h : ∀ a : ℚ, l.foldl qadd a = a + l.sum by
    simpa using h 0
  induction l with
  | nil => intro a; simp
  | cons x t ih =>
    intro a
    rw [List.foldl_cons, ih, qadd_eq, List.sum_cons]
    ring

/-! ## General lemmas: window sums and Cauchy-Schwarz -/

theorem winSums_eq (g1 g2 : ℕ → ℕ → ℕ) (h w i j : ℕ) :
    winSums g1 g2 h w i j =
      ⟨((winCoords h w i j).map (fun p => g1 p.1 p.2)).sum,
       ((winCoords h w i j).map (fun p => g2 p.1 p.2)).sum,
       ((winCoords h w i j).map (fun p => g1 p.1 p.2 * g1 p.1 p.2)).sum,
       ((winCoords h w i j).map (fun p => g2 p.1 p.2 * g2 p.1 p.2)).sum,
       ((winCoords h w i j).map (fun p => g1 p.1 p.2 * g2 p.1 p.2)).sum⟩ := by
  simp only [winSums]
  have key : ∀ (l : List (ℕ × ℕ)) (a : WinSums),
      l.foldl (fun acc p =>
        ⟨acc.sx + g1 p.1 p.2, acc.sy + g2 p.1 p.2, acc.sxx + g1 p.1 p.2 * g1 p.1 p.2,
         acc.syy + g2 p.1 p.2 * g2 p.1 p.2, acc.sxy + g1 p.1 p.2 * g2 p.1 p.2⟩) a =
      ⟨a.sx + (l.map (fun p => g1 p.1 p.2)).sum, a.sy + (l.map (fun p => g2 p.1 p.2)).sum,
       a.sxx + (l.map (fun p => g1 p.1 p.2 * g1 p.1 p.2)).sum,
       a.syy + (l.map (fun p => g2 p.1 p.2 * g2 p.1 p.2)).sum,
       a.sxy + (l.map (fun p => g1 p.1 p.2 * g2 p.1 p.2)).sum⟩ := by
    intro l
    induction l with
    | nil => intro a; simp
    | cons q t ih =>
      intro a
      rw [List.foldl_cons, ih]
      simp only [List.map_cons, List.sum_cons, WinSums.mk.injEq]
      refine ⟨?_, ?_, ?_, ?_, ?_⟩ <;> omega
  rw [key]
  simp

theorem two_mul_le_sum_sq (a : ℤ) (t : List ℤ) :
    2 * a * t.sum ≤ (t.length : ℤ) * (a * a) + (t.map (fun v => v * v)).sum := by
  induction t with
  | nil => simp
  | cons b r ih =>
    simp only [List.sum_cons, List.map_cons, List.length_cons]
    push_cast
    nlinarith [ih, sq_nonneg (a - b)]

theorem sum_sq_le (l : List ℤ) :
    l.sum * l.sum ≤ (l.length : ℤ) * (l.map (fun v => v * v)).sum := by
  induction l with
  | nil => simp
  | cons a t ih =>
    simp only [List.sum_cons, List.map_cons, List.length_cons]
    push_cast
    nlinarith [ih, two_mul_le_sum_sq a t]

theorem winCoords_length (h w i j : ℕ) : (winCoords h w i j).length = 49 := by
  simp [winCoords, winOffs]

theorem winSums_cs (g : ℕ → ℕ → ℕ) (h w i j : ℕ) :
    ((winSums g g h w i j).sx : ℤ) * ((winSums g g h w i j).sx : ℤ) ≤
      49 * ((winSums g g h w i j).sxx : ℤ) := by
  rw [winSums_eq]
  dsimp only
  have hcs := sum_sq_le ((winCoords h w i j).map (fun p => (g p.1 p.2 : ℤ)))
  rw [List.length_map, winCoords_length] at hcs
  have e1 : (((winCoords h w i j).map (fun p => g p.1 p.2)).sum : ℤ)
      = ((winCoords h w i j).map (fun p => (g p.1 p.2 : ℤ))).sum := by
    rw [Nat.cast_list_sum, List.map_map]
    rfl
  have e2 : (((winCoords h w i j).map (fun p => g p.1 p.2 * g p.1 p.2)).sum : ℤ)
      = (((winCoords h w i j).map (fun p => (g p.1 p.2 : ℤ))).map (fun v => v * v)).sum := by
    rw [Nat.cast_list_sum, List.map_map, List.map_map]
    refine congrArg List.sum (List.map_congr_left (fun p _ => ?_))
    exact Nat.cast_mul _ _
  rw [e1, e2]
  exact hcs

/-! ## General lemmas: SSIM of an image against itself, and symmetry -/

theorem ssimMap_self (g : Img ℕ) (i j : ℕ) : ssimMap g g i j = 1 := by
  simp only [ssimMap]
  have hcs := winSums_cs g.pix g.h g.w i j
  set s := winSums g.pix g.pix g.h g.w i j with hs
  have hxy : s.sy = s.sx ∧ s.syy = s.sxx ∧ s.sxy = s.sxx := by
    rw [hs, winSums_eq]
    exact ⟨rfl, rfl, rfl⟩
  have hnum : ssimNum s = ssimDen s := by
    unfold ssimNum ssimDen
    rw [hxy.1, hxy.2.1, hxy.2.2]
    ring
  have hpos : 0 < ssimDen s := by
    unfold ssimDen
    rw [hxy.1, hxy.2.1]
    have c1 : (0:ℤ) < 400 * ((s.sx:ℤ) * s.sx + (s.sx:ℤ) * s.sx) + 2601 * 2401 := by positivity
    have c2 : (0:ℤ) < 400 * ((49 * (s.sxx:ℤ) - (s.sx:ℤ) * s.sx) + (49 * (s.sxx:ℤ) - (s.sx:ℤ) * s.sx))
        + 23409 * 2352 := by nlinarith [hcs]
    exact mul_pos c1 c2
  rw [hnum, Rat.divInt_eq_div]
  exact div_self (Int.cast_ne_zero.mpr (ne_of_gt hpos))

theorem ssimScore_self (g : Img ℕ) (hh : 7 ≤ g.h) (hw : 7 ≤ g.w) : ssimScore g g = 1 := by
  unfold ssimScore ssimCropList
  have h1 : ∀ i j, ssimMap g g i j = 1 := ssimMap_self g
  simp only [h1]
  rw [List.map_const', List.length_range, List.flatMap_def, List.map_const', List.length_range,
    List.flatten_replicate_replicate, qsum_eq, List.sum_replicate, nsmul_eq_mul, mul_one,
    qdiv_eq, castRep]
  rw [div_self]
  have h2 : 0 < (g.h - 6) * (g.w - 6) := by
    have : 0 < g.h - 6 := by omega
    have : 0 < g.w - 6 := by omega
    positivity
  exact Nat.cast_ne_zero.mpr (Nat.pos_iff_ne_zero.mp h2)

theorem ssimMap_swap (g1 g2 : Img ℕ) (hh : g2.h = g1.h) (hw : g2.w = g1.w) (i j : ℕ) :
    ssimMap g2 g1 i j = ssimMap g1 g2 i j := by
  simp only [ssimMap]
  rw [hh, hw]
  rw [winSums_eq, winSums_eq]
  have hc : (fun p : ℕ × ℕ => g2.pix p.1 p.2 * g1.pix p.1 p.2)
      = (fun p : ℕ × ℕ => g1.pix p.1 p.2 * g2.pix p.1 p.2) :=
    funext (fun p => Nat.mul_comm _ _)
  rw [hc]
  unfold ssimNum ssimDen
  dsimp only
  exact congrArg₂ Rat.divInt (by ring) (by ring)

theorem ssimScore_swap (g1 g2 : Img ℕ) (hh : g2.h = g1.h) (hw : g2.w = g1.w) :
    ssimScore g2 g1 = ssimScore g1 g2 := by
  unfold ssimScore ssimCropList
  rw [hh, hw]
  simp only [ssimMap_swap g1 g2 hh hw]

/-! ## General lemmas: the difference image of identical inputs -/

theorem diffByteGrid_self (g : Img ℕ) (h w : ℕ) :
    diffByteGrid (ssimMap g g) h w = constGrid h w 255 := by
  unfold diffByteGrid constGrid
  refine List.map_congr_left (fun i _ => ?_)
  refine List.map_congr_left (fun j _ => ?_)
  rw [ssimMap_self]
  decide

theorem rectsFromBytes_const255 (h w : ℕ) : rectsFromBytes (constGrid h w 255) = [] := by
  rw [rectsFromBytes_def, flatten_constGrid, otsuRep255, threshBinaryInv_constGrid,
    if_neg (by omega), findContours_constGrid_zero]
  rfl

theorem rects7x7zeros : rectsFromBytes zeros7Rows = [] := by
  have hz : zeros7Rows = constGrid 7 7 0 := rfl
  rw [rectsFromBytes_def, hz, flatten_constGrid, otsuRep0, threshBinaryInv_constGrid,
    if_pos (by decide)]
  decide

/-! ## General lemmas: annotation dimensions -/

theorem foldl_cvRectangle_h (l : List Rect) (img : Img Pix) :
    (l.foldl cvRectangle img).h = img.h := by
  induction l generalizing img with
  | nil => rfl
  | cons r t ih => exact ih (cvRectangle img r)

theorem foldl_cvRectangle_w (l : List Rect) (img : Img Pix) :
    (l.foldl cvRectangle img).w = img.w := by
  induction l generalizing img with
  | nil => rfl
  | cons r t ih => exact ih (cvRectangle img r)

/-! ## General lemmas: the area filter -/

theorem rectsFromBytes_mem (rows : List (List ℕ)) (r : Rect) :
    r ∈ rectsFromBytes rows ↔
      ∃ c ∈ findContours (threshBinaryInv rows (otsuThreshold rows.flatten)),
        Rat.divInt 40 1 < contourArea c ∧ r = boundingRect c := by
  rw [rectsFromBytes_def]
  simp only [List.mem_map, List.mem_filter, qlt_iff]
  constructor
  · rintro ⟨c, ⟨hc, hlt⟩, rfl⟩
    exact ⟨c, hc, hlt, rfl⟩
  · rintro ⟨c, hc, hlt, rfl⟩
    exact ⟨c, ⟨hc, hlt⟩, rfl⟩

/-! ## General lemmas: the correlation maximum -/

theorem argmaxFold_ge (f : ℕ × ℕ → ℚ) (l : List (ℕ × ℕ)) (b : ℕ × ℕ) :
    f b ≤ f (l.foldl (fun best q => if qlt (f best) (f q) then q else best) b) ∧
    ∀ p ∈ l, f p ≤ f (l.foldl (fun best q => if qlt (f best) (f q) then q else best) b) := by
  induction l generalizing b with
  | nil => exact ⟨le_refl _, by simp⟩
  | cons q t ih =>
    rw [List.foldl_cons]
    by_cases hlt : qlt (f b) (f q) = true
    · rw [if_pos hlt]
      refine ⟨le_trans (le_of_lt ((qlt_iff _ _).mp hlt)) (ih q).1, ?_⟩
      intro p hp
      rcases List.mem_cons.mp hp with rfl | hp2
      · exact (ih p).1
      · exact (ih q).2 p hp2
    · rw [if_neg hlt]
      have hqb : f q ≤ f b := not_lt.mp (fun hc => hlt ((qlt_iff _ _).mpr hc))
      refine ⟨(ih b).1, ?_⟩
      intro p hp
      rcases List.mem_cons.mp hp with rfl | hp2
      · exact le_trans hqb (ih b).1
      · exact (ih b).2 p hp2

theorem argmaxPos_spec (f : ℕ × ℕ → ℚ) (l : List (ℕ × ℕ)) (p : ℕ × ℕ) (hp : p ∈ l) :
    f p ≤ f (argmaxPos f l) := by
  cases l with
  | nil => cases hp
  | cons q t =>
    unfold argmaxPos
    rcases List.mem_cons.mp hp with rfl | hp2
    · exact (argmaxFold_ge f t p).1
    · exact (argmaxFold_ge f t q).2 p hp2

/-! ## Claim theorems -/

/-- Claim C1: the claim is falsified by small images: `white3.png` loads
and decodes successfully, yet `compare` on it raises the window-size
`ValueError` of `structural_similarity` instead of returning a score of
`1.0` with zero rectangles. -/
theorem C1_counterexample :
    (∃ img, fsMain "white3.png" = .image img) ∧
    (compareRun fsMain "white3.png" "white3.png" thDefault none).2 = .error .winSizeError :=
  ⟨⟨whiteImg 3, rfl⟩, rfl⟩

/-- Claim C1 (amended): for every image path that loads and decodes and
whose image is at least 7x7 (the SSIM window), comparing it against
itself succeeds with score exactly 1, an empty rectangle list, and the
unchanged image as the annotated output. -/
theorem C1_selfCompare (fs : FS) (p : String) (t : ℚ) (out : Option String) (img : Img Pix)
    (himg : fs p = .image img) (hh : 7 ≤ img.h) (hw : 7 ≤ img.w) :
    ∃ o, (compareRun fs p p t out).2 = .ok o ∧
      o.score = 1 ∧ o.rects = [] ∧ o.annotated = img := by
  have hrun : compareRun fs p p t out = compareCore fs out img img := by
    unfold compareRun load_image
    rw [himg]
  have hrec : reconcile img img = img := by
    unfold reconcile
    rw [if_pos ⟨rfl, rfl⟩]
  rw [hrun, compareCore_spec fs out img img hh hw]
  refine ⟨_, rfl, ?_, ?_, ?_⟩
  · show ssimScore (cvtColorGray img) (cvtColorGray (reconcile img img)) = 1
    rw [hrec]
    exact ssimScore_self (cvtColorGray img) hh hw
  · show rectsFromBytes (diffByteGrid
        (ssimMap (cvtColorGray img) (cvtColorGray (reconcile img img))) img.h img.w) = []
    rw [hrec, diffByteGrid_self, rectsFromBytes_const255]
  · show (rectsFromBytes (diffByteGrid
        (ssimMap (cvtColorGray img) (cvtColorGray (reconcile img img))) img.h img.w)).foldl
        cvRectangle (reconcile img img) = img
    rw [hrec, diffByteGrid_self, rectsFromBytes_const255]
    rfl

theorem C1_selfCompare_witness :
    ∃ o, (compareRun fsMain "white7.png" "white7.png" thDefault none).2 = .ok o ∧
      o.score = 1 ∧ o.rects = [] ∧ o.annotated = whiteImg 7 :=
  C1_selfCompare fsMain "white7.png" thDefault none (whiteImg 7) rfl (by decide) (by decide)

/-- Claim C2: the claim is falsified by small images: `white3.png` and
`white4.png` decode and have different dimensions, and the resize does
happen, but the call then raises the window-size `ValueError` instead of
completing. -/
theorem C2_counterexample :
    fsMain "white3.png" = .image (whiteImg 3) ∧
    fsMain "white4.png" = .image (whiteImg 4) ∧
    ¬((whiteImg 3).h = (whiteImg 4).h ∧ (whiteImg 3).w = (whiteImg 4).w) ∧
    (compareRun fsMain "white3.png" "white4.png" thDefault none).2 = .error .winSizeError :=
  ⟨rfl, rfl, by decide, rfl⟩

/-- Claim C2 (amended): for decodable inputs of different dimensions
whose first image is at least 7x7, the comparison completes without
raising and its score is computed on the second image resized to the
first image's dimensions before grayscale conversion and SSIM. -/
theorem C2_resize (fs : FS) (p1 p2 : String) (t : ℚ) (out : Option String) (img1 img2 : Img Pix)
    (h1 : fs p1 = .image img1) (h2 : fs p2 = .image img2)
    (hne : ¬(img1.h = img2.h ∧ img1.w = img2.w)) (hh : 7 ≤ img1.h) (hw : 7 ≤ img1.w) :
    ∃ o, (compareRun fs p1 p2 t out).2 = .ok o ∧
      o.score = ssimScore (cvtColorGray img1) (cvtColorGray (cvResize img2 img1.h img1.w)) := by
  have hrun : compareRun fs p1 p2 t out = compareCore fs out img1 img2 := by
    unfold compareRun load_image
    rw [h1, h2]
  have hrec : reconcile img1 img2 = cvResize img2 img1.h img1.w := by
    unfold reconcile
    rw [if_neg hne]
  rw [hrun, compareCore_spec fs out img1 img2 hh hw]
  refine ⟨_, rfl, ?_⟩
  show ssimScore (cvtColorGray img1) (cvtColorGray (reconcile img1 img2))
      = ssimScore (cvtColorGray img1) (cvtColorGray (cvResize img2 img1.h img1.w))
  rw [hrec]

theorem C2_resize_witness :
    ∃ o, (compareRun fsMain "white7.png" "white8.png" thDefault none).2 = .ok o ∧
      o.score = ssimScore (cvtColorGray (whiteImg 7))
        (cvtColorGray (cvResize (whiteImg 8) (whiteImg 7).h (whiteImg 7).w)) :=
  C2_resize fsMain "white7.png" "white8.png" thDefault none (whiteImg 7) (whiteImg 8)
    rfl rfl (by decide) (by decide) (by decide)

/-- Claim C4: the claim is falsified by an existing but unreadable file:
`locked.png` exists (it is not absent), yet `compare` raises the decode
`ValueError`, not `FileNotFoundError`, because `os.path.exists` succeeds
and `cv2.imread` returns `None`. -/
theorem C4_counterexample :
    fsMain "locked.png" ≠ FileState.absent ∧
    (compareRun fsMain "locked.png" "white7.png" thDefault none).2 = .error .decodeFail ∧
    PyError.decodeFail ≠ PyError.fileNotFound := by
  refine ⟨?_, rfl, by decide⟩
  show FileState.unreadable ≠ FileState.absent
  intro h
  exact FileState.noConfusion h

/-- Claim C4 (amended): `compare` checks the first path, then the second;
a missing file raises `FileNotFoundError`, an existing file that cannot
be read or decoded raises the decode `ValueError`; and whenever any error
is raised the file system is returned unchanged (nothing is written) and
no result is produced. -/
theorem C4_errors (fs : FS) (p1 p2 : String) (t : ℚ) (out : Option String) :
    (fs p1 = .absent → compareRun fs p1 p2 t out = (fs, .error .fileNotFound)) ∧
    (fs p1 = .unreadable → compareRun fs p1 p2 t out = (fs, .error .decodeFail)) ∧
    (fs p1 = .undecodable → compareRun fs p1 p2 t out = (fs, .error .decodeFail)) ∧
    (∀ img1, fs p1 = .image img1 → fs p2 = .absent →
      compareRun fs p1 p2 t out = (fs, .error .fileNotFound)) ∧
    (∀ img1, fs p1 = .image img1 → fs p2 = .unreadable →
      compareRun fs p1 p2 t out = (fs, .error .decodeFail)) ∧
    (∀ img1, fs p1 = .image img1 → fs p2 = .undecodable →
      compareRun fs p1 p2 t out = (fs, .error .decodeFail)) ∧
    (∀ e, (compareRun fs p1 p2 t out).2 = .error e → (compareRun fs p1 p2 t out).1 = fs) := by
  refine ⟨?_, ?_, ?_, ?_, ?_, ?_, ?_⟩
  · intro h
    unfold compareRun load_image
    rw [h]
  · intro h
    unfold compareRun load_image
    rw [h]
  · intro h
    unfold compareRun load_image
    rw [h]
  · intro img1 hi h
    unfold compareRun load_image
    rw [hi, h]
  · intro img1 hi h
    unfold compareRun load_image
    rw [hi, h]
  · intro img1 hi h
    unfold compareRun load_image
    rw [hi, h]
  · intro e
    unfold compareRun load_image
    cases hf1 : fs p1 with
    | absent => intro _; rfl
    | unreadable => intro _; rfl
    | undecodable => intro _; rfl
    | image img1 =>
      cases hf2 : fs p2 with
      | absent => intro _; rfl
      | unreadable => intro _; rfl
      | undecodable => intro _; rfl
      | image img2 =>
        simp only [compareCore]
        cases hss : structural_similarity (cvtColorGray img1)
            (cvtColorGray (reconcile img1 img2)) with
        | error e2 => intro _; rfl
        | ok sm => intro he; simp at he

theorem C4_errors_witness :
    compareRun fsMain "nope.png" "white7.png" thDefault none = (fsMain, .error .fileNotFound) :=
  (C4_errors fsMain "nope.png" "white7.png" thDefault none).1 rfl

/-- Claim C5: the claim is falsified by the non-strict comparison in the
source (`result >= threshold`): matching the checkerboard template
against itself at threshold 1 finds a correlation exactly equal to the
threshold, never strictly above it, yet a rectangle is returned. -/
theorem C5_counterexample :
    find_template fsMain "checker.png" "checker.png" 1 = .ok (some (0, 0, 2, 2)) ∧
    tmCorrSq checker2 checker2 0 0 = thrSq 1 ∧
    tmOffsets checker2 checker2 = [(0, 0)] :=
  ⟨rfl, by decide, by decide⟩

/-- Claim C5 (amended): for decodable screenshot and template with the
template no larger than the screenshot, `findTemplate` returns the
best-match rectangle when some position reaches the threshold
(non-strict `>=`), and returns `None` without raising when every
position is strictly below the threshold. -/
theorem C5_threshold (fs : FS) (sp tp : String) (t : ℚ) (s tpl : Img Pix)
    (hs : fs sp = .image s) (ht : fs tp = .image tpl)
    (hsz : tpl.h ≤ s.h ∧ tpl.w ≤ s.w) :
    ((∃ p ∈ tmOffsets s tpl, thrSq t ≤ tmCorrSq s tpl p.1 p.2) →
      find_template fs sp tp t = .ok (some
        ((argmaxPos (fun p => tmCorrSq s tpl p.1 p.2) (tmOffsets s tpl)).2,
         (argmaxPos (fun p => tmCorrSq s tpl p.1 p.2) (tmOffsets s tpl)).1, tpl.w, tpl.h))) ∧
    ((∀ p ∈ tmOffsets s tpl, tmCorrSq s tpl p.1 p.2 < thrSq t) →
      find_template fs sp tp t = .ok none) := by
  have hsz2 : ¬(s.h < tpl.h ∨ s.w < tpl.w) := by
    rw [not_or]
    exact ⟨Nat.not_lt.mpr hsz.1, Nat.not_lt.mpr hsz.2⟩
  constructor
  · rintro ⟨p, hp, hle⟩
    have hcond : (tmOffsets s tpl).any (fun p => qle (thrSq t) (tmCorrSq s tpl p.1 p.2)) = true :=
      List.any_eq_true.mpr ⟨p, hp, (qle_iff _ _).mpr hle⟩
    simp only [find_template, load_image, hs, ht]
    rw [if_neg hsz2, if_pos hcond]
  · intro hall
    have hcond : ¬((tmOffsets s tpl).any
        (fun p => qle (thrSq t) (tmCorrSq s tpl p.1 p.2)) = true) := by
      intro hany
      obtain ⟨p, hp, hle⟩ := List.any_eq_true.mp hany
      exact absurd ((qle_iff _ _).mp hle) (not_le.mpr (hall p hp))
    simp only [find_template, load_image, hs, ht]
    rw [if_neg hsz2, if_neg hcond]

theorem C5_threshold_witness :
    find_template fsMain "scr3.png" "checker.png" (Rat.divInt 1 2) = .ok (some
      ((argmaxPos (fun p => tmCorrSq scr3 checker2 p.1 p.2) (tmOffsets scr3 checker2)).2,
       (argmaxPos (fun p => tmCorrSq scr3 checker2 p.1 p.2) (tmOffsets scr3 checker2)).1,
       checker2.w, checker2.h)) :=
  (C5_threshold fsMain "scr3.png" "checker.png" (Rat.divInt 1 2) scr3 checker2
    rfl rfl (by decide)).1 ⟨(0, 0), by decide, by decide⟩

/-- Claim C6: the comparator is threshold-agnostic: `compare_images`
invoked with any two threshold values returns identical results, because
the threshold parameter does not occur in the function body. -/
theorem C6_threshold_agnostic (fs : FS) (p1 p2 : String) (out : Option String) (t1 t2 : ℚ) :
    compare_images fs p1 p2 t1 out = compare_images fs p1 p2 t2 out := rfl

/-- Claim C7: the claim is falsified when the output path collides with
an input path: comparing `white7.png` against `black7.png` with the
output written to `white7.png` succeeds and overwrites the first input
file with the annotated (black) image, so the input files are not left
unchanged. -/
theorem C7_counterexample :
    fsMain "white7.png" = .image (whiteImg 7) ∧
    isOkRun (compareRun fsMain "white7.png" "black7.png" thDefault (some "white7.png")) = true ∧
    (compareRun fsMain "white7.png" "black7.png" thDefault (some "white7.png")).1 "white7.png"
      = .image black7 ∧
    black7.pix 0 0 ≠ (whiteImg 7).pix 0 0 := by
  refine ⟨rfl, rfl, ?_, by decide⟩
  have hrun : compareRun fsMain "white7.png" "black7.png" thDefault (some "white7.png")
      = compareCore fsMain (some "white7.png") (whiteImg 7) black7 := rfl
  have hrec : reconcile (whiteImg 7) black7 = black7 := rfl
  rw [hrun, compareCore_spec fsMain (some "white7.png") (whiteImg 7) black7
    (by decide) (by decide), hrec]
  show updateFS fsMain "white7.png"
      (.image ((rectsFromBytes (diffByteGrid
        (ssimMap (cvtColorGray (whiteImg 7)) (cvtColorGray black7)) 7 7)).foldl
        cvRectangle black7)) "white7.png" = .image black7
  rw [diffBytesBW, rects7x7zeros]
  unfold updateFS
  rw [if_pos rfl]
  rfl

/-- Claim C7 (amended): without an output path nothing is written; with
an output path only that path is written, so the inputs are unchanged
provided the output path differs from both input paths; and on success
the output path holds the annotated image.  The unstated hypothesis that
the output path must not collide with an input path is the correction. -/
theorem C7_frame (fs : FS) (p1 p2 : String) (t : ℚ) (outp : String) :
    ((compareRun fs p1 p2 t none).1 = fs) ∧
    (∀ q, q ≠ outp → (compareRun fs p1 p2 t (some outp)).1 q = fs q) ∧
    (outp ≠ p1 → outp ≠ p2 →
      (compareRun fs p1 p2 t (some outp)).1 p1 = fs p1 ∧
      (compareRun fs p1 p2 t (some outp)).1 p2 = fs p2) ∧
    (∀ o, (compareRun fs p1 p2 t (some outp)).2 = .ok o →
      (compareRun fs p1 p2 t (some outp)).1 outp = .image o.annotated) := by
  have ha : (compareRun fs p1 p2 t none).1 = fs := by
    unfold compareRun load_image
    cases hf1 : fs p1 with
    | absent => rfl
    | unreadable => rfl
    | undecodable => rfl
    | image img1 =>
      cases hf2 : fs p2 with
      | absent => rfl
      | unreadable => rfl
      | undecodable => rfl
      | image img2 =>
        simp only [compareCore]
        cases hss : structural_similarity (cvtColorGray img1)
            (cvtColorGray (reconcile img1 img2)) with
        | error e => rfl
        | ok sm => rfl
  have hb : ∀ q, q ≠ outp → (compareRun fs p1 p2 t (some outp)).1 q = fs q := by
    intro q hq
    unfold compareRun load_image
    cases hf1 : fs p1 with
    | absent => rfl
    | unreadable => rfl
    | undecodable => rfl
    | image img1 =>
      cases hf2 : fs p2 with
      | absent => rfl
      | unreadable => rfl
      | undecodable => rfl
      | image img2 =>
        simp only [compareCore]
        cases hss : structural_similarity (cvtColorGray img1)
            (cvtColorGray (reconcile img1 img2)) with
        | error e => rfl
        | ok sm =>
          show updateFS fs outp _ q = fs q
          unfold updateFS
          rw [if_neg hq]
  have hd : ∀ o, (compareRun fs p1 p2 t (some outp)).2 = .ok o →
      (compareRun fs p1 p2 t (some outp)).1 outp = .image o.annotated := by
    intro o
    unfold compareRun load_image
    cases hf1 : fs p1 with
    | absent => intro ho; simp at ho
    | unreadable => intro ho; simp at ho
    | undecodable => intro ho; simp at ho
    | image img1 =>
      cases hf2 : fs p2 with
      | absent => intro ho; simp at ho
      | unreadable => intro ho; simp at ho
      | undecodable => intro ho; simp at ho
      | image img2 =>
        simp only [compareCore]
        cases hss : structural_similarity (cvtColorGray img1)
            (cvtColorGray (reconcile img1 img2)) with
        | error e => intro ho; simp at ho
        | ok sm =>
          intro ho
          simp only [Except.ok.injEq] at ho
          rw [← ho]
          show updateFS fs outp _ outp = _
          unfold updateFS
          rw [if_pos rfl]
  exact ⟨ha, hb, fun hp1 hp2 =>
    ⟨hb p1 (fun hh => hp1 hh.symm), hb p2 (fun hh => hp2 hh.symm)⟩, hd⟩

theorem C7_frame_witness :
    (compareRun fsMain "white7.png" "black7.png" thDefault none).1 = fsMain :=
  (C7_frame fsMain "white7.png" "black7.png" thDefault "out.png").1

/-- Claim C8: for decodable inputs of identical dimensions, swapping the
argument order of `compare` yields exactly the same similarity score (or
the same error), by the symmetry of the SSIM computation. -/
theorem C8_score_symmetric (fs : FS) (p1 p2 : String) (t : ℚ) (out : Option String)
    (img1 img2 : Img Pix) (h1 : fs p1 = .image img1) (h2 : fs p2 = .image img2)
    (hh : img1.h = img2.h) (hw : img1.w = img2.w) :
    scoreOfRun (compareRun fs p1 p2 t out) = scoreOfRun (compareRun fs p2 p1 t out) := by
  have e1 : compareRun fs p1 p2 t out = compareCore fs out img1 img2 := by
    unfold compareRun load_image
    rw [h1, h2]
  have e2 : compareRun fs p2 p1 t out = compareCore fs out img2 img1 := by
    unfold compareRun load_image
    rw [h2, h1]
  have r12 : reconcile img1 img2 = img2 := by
    unfold reconcile
    rw [if_pos ⟨hh, hw⟩]
  have r21 : reconcile img2 img1 = img1 := by
    unfold reconcile
    rw [if_pos ⟨hh.symm, hw.symm⟩]
  rw [e1, e2]
  simp only [compareCore]
  rw [r12, r21]
  by_cases hbad : img1.h < 7 ∨ img1.w < 7
  · have hbad2 : img2.h < 7 ∨ img2.w < 7 := by
      rw [← hh, ← hw]
      exact hbad
    have hbad1c : (cvtColorGray img1).h < 7 ∨ (cvtColorGray img1).w < 7 := hbad
    have hbad2c : (cvtColorGray img2).h < 7 ∨ (cvtColorGray img2).w < 7 := hbad2
    have hs1 : structural_similarity (cvtColorGray img1) (cvtColorGray img2)
        = .error .winSizeError := by
      unfold structural_similarity
      rw [if_neg (by rw [not_or]; exact ⟨fun hx => hx hh, fun hx => hx hw⟩), if_pos hbad1c]
    have hs2 : structural_similarity (cvtColorGray img2) (cvtColorGray img1)
        = .error .winSizeError := by
      unfold structural_similarity
      rw [if_neg (by rw [not_or]; exact ⟨fun hx => hx hh.symm, fun hx => hx hw.symm⟩),
        if_pos hbad2c]
    rw [hs1, hs2]
  · rw [not_or] at hbad
    have hge1 : 7 ≤ img1.h := Nat.not_lt.mp hbad.1
    have hge2 : 7 ≤ img1.w := Nat.not_lt.mp hbad.2
    rw [structural_similarity_ok (cvtColorGray img1) (cvtColorGray img2) hh hw hge1 hge2,
        structural_similarity_ok (cvtColorGray img2) (cvtColorGray img1) hh.symm hw.symm
          (hh ▸ hge1) (hw ▸ hge2)]
    show some (ssimScore (cvtColorGray img1) (cvtColorGray img2))
        = some (ssimScore (cvtColorGray img2) (cvtColorGray img1))
    rw [ssimScore_swap (cvtColorGray img1) (cvtColorGray img2) hh.symm hw.symm]

theorem C8_score_symmetric_witness :
    scoreOfRun (compareRun fsMain "white7.png" "black7.png" thDefault none)
      = scoreOfRun (compareRun fsMain "black7.png" "white7.png" thDefault none) :=
  C8_score_symmetric fsMain "white7.png" "black7.png" thDefault none (whiteImg 7) black7
    rfl rfl rfl rfl

/-- Claim C9: every successful comparison returns an annotated image
with the pixel dimensions of the FIRST input image: the annotation base
is the (possibly resized) copy of the second image, whose dimensions are
reconciled to the first image's. -/
theorem C9_resultDims (fs : FS) (p1 p2 : String) (t : ℚ) (out : Option String) (img1 : Img Pix)
    (h1 : fs p1 = .image img1)
    (hok : isOkRun (compareRun fs p1 p2 t out) = true) :
    ∃ o, (compareRun fs p1 p2 t out).2 = .ok o ∧
      o.annotated.h = img1.h ∧ o.annotated.w = img1.w := by
  cases h2 : fs p2 with
  | absent =>
    rw [show compareRun fs p1 p2 t out = (fs, .error .fileNotFound) from by
      unfold compareRun load_image; rw [h1, h2]] at hok
    simp [isOkRun] at hok
  | unreadable =>
    rw [show compareRun fs p1 p2 t out = (fs, .error .decodeFail) from by
      unfold compareRun load_image; rw [h1, h2]] at hok
    simp [isOkRun] at hok
  | undecodable =>
    rw [show compareRun fs p1 p2 t out = (fs, .error .decodeFail) from by
      unfold compareRun load_image; rw [h1, h2]] at hok
    simp [isOkRun] at hok
  | image img2 =>
    have hrun : compareRun fs p1 p2 t out = compareCore fs out img1 img2 := by
      unfold compareRun load_image
      rw [h1, h2]
    rw [hrun] at hok ⊢
    revert hok
    simp only [compareCore]
    cases hss : structural_similarity (cvtColorGray img1)
        (cvtColorGray (reconcile img1 img2)) with
    | error e => intro hok; simp [isOkRun] at hok
    | ok sm =>
      intro _
      refine ⟨_, rfl, ?_, ?_⟩
      · show ((rectsFromBytes (diffByteGrid sm.2 img1.h img1.w)).foldl
          cvRectangle (reconcile img1 img2)).h = img1.h
        rw [foldl_cvRectangle_h, reconcile_h]
      · show ((rectsFromBytes (diffByteGrid sm.2 img1.h img1.w)).foldl
          cvRectangle (reconcile img1 img2)).w = img1.w
        rw [foldl_cvRectangle_w, reconcile_w]

theorem C9_resultDims_witness :
    ∃ o, (compareRun fsMain "white7.png" "white8.png" thDefault none).2 = .ok o ∧
      o.annotated.h = 7 ∧ o.annotated.w = 7 :=
  C9_resultDims fsMain "white7.png" "white8.png" thDefault none (whiteImg 7) rfl rfl

/-- Claim C10: whenever `findTemplate` returns a rectangle, its width
and height are the template's own dimensions, its position is the global
maximum of the correlation map (no position has a larger value), and the
value there is at least the given threshold. -/
theorem C10_matchResult (fs : FS) (sp tp : String) (t : ℚ) (s tpl : Img Pix)
    (hs : fs sp = .image s) (ht : fs tp = .image tpl) (r : Rect)
    (hr : find_template fs sp tp t = .ok (some r)) :
    r = ((argmaxPos (fun p => tmCorrSq s tpl p.1 p.2) (tmOffsets s tpl)).2,
         (argmaxPos (fun p => tmCorrSq s tpl p.1 p.2) (tmOffsets s tpl)).1, tpl.w, tpl.h) ∧
    (∀ p ∈ tmOffsets s tpl, tmCorrSq s tpl p.1 p.2 ≤
      tmCorrSq s tpl (argmaxPos (fun p => tmCorrSq s tpl p.1 p.2) (tmOffsets s tpl)).1
        (argmaxPos (fun p => tmCorrSq s tpl p.1 p.2) (tmOffsets s tpl)).2) ∧
    thrSq t ≤ tmCorrSq s tpl (argmaxPos (fun p => tmCorrSq s tpl p.1 p.2) (tmOffsets s tpl)).1
      (argmaxPos (fun p => tmCorrSq s tpl p.1 p.2) (tmOffsets s tpl)).2 := by
  simp only [find_template, load_image, hs, ht] at hr
  by_cases hsz : s.h < tpl.h ∨ s.w < tpl.w
  · rw [if_pos hsz] at hr
    exact absurd hr (by simp)
  · rw [if_neg hsz] at hr
    by_cases hany : (tmOffsets s tpl).any
        (fun p => qle (thrSq t) (tmCorrSq s tpl p.1 p.2)) = true
    · rw [if_pos hany] at hr
      simp only [Except.ok.injEq, Option.some.injEq] at hr
      obtain ⟨p0, hp0, hle0⟩ := List.any_eq_true.mp hany
      have hth : thrSq t ≤ tmCorrSq s tpl p0.1 p0.2 := (qle_iff _ _).mp hle0
      refine ⟨hr.symm, ?_, ?_⟩
      · intro p hp
        exact argmaxPos_spec (fun p => tmCorrSq s tpl p.1 p.2) (tmOffsets s tpl) p hp
      · exact le_trans hth
          (argmaxPos_spec (fun p => tmCorrSq s tpl p.1 p.2) (tmOffsets s tpl) p0 hp0)
    · rw [if_neg hany] at hr
      exact absurd hr (by simp)

theorem C10_matchResult_witness :
    (1, 1, 2, 2) = ((argmaxPos (fun p => tmCorrSq scr3 checker2 p.1 p.2)
        (tmOffsets scr3 checker2)).2,
      (argmaxPos (fun p => tmCorrSq scr3 checker2 p.1 p.2) (tmOffsets scr3 checker2)).1,
      checker2.w, checker2.h) ∧
    (∀ p ∈ tmOffsets scr3 checker2, tmCorrSq scr3 checker2 p.1 p.2 ≤
      tmCorrSq scr3 checker2
        (argmaxPos (fun p => tmCorrSq scr3 checker2 p.1 p.2) (tmOffsets scr3 checker2)).1
        (argmaxPos (fun p => tmCorrSq scr3 checker2 p.1 p.2) (tmOffsets scr3 checker2)).2) ∧
    thrSq (Rat.divInt 1 2) ≤ tmCorrSq scr3 checker2
      (argmaxPos (fun p => tmCorrSq scr3 checker2 p.1 p.2) (tmOffsets scr3 checker2)).1
      (argmaxPos (fun p => tmCorrSq scr3 checker2 p.1 p.2) (tmOffsets scr3 checker2)).2 :=
  C10_matchResult fsMain "scr3.png" "checker.png" (Rat.divInt 1 2) scr3 checker2
    rfl rfl (1, 1, 2, 2) rfl

/-! ## The 5x5-patch instance -/

theorem rectsRunI5 : rectsOfRun (compareRun fsMain "base16.png" "cur5.png" thDefault none)
    = some [(2, 2, 11, 11)] := by
  have hrun : compareRun fsMain "base16.png" "cur5.png" thDefault none
      = compareCore fsMain none (whiteImg 16) imgI5 := rfl
  have hrec : reconcile (whiteImg 16) imgI5 = imgI5 := rfl
  rewrite [hrun, compareCore_spec fsMain none (whiteImg 16) imgI5 (by decide) (by decide), hrec,
    show (whiteImg 16).h = 16 from rfl, show (whiteImg 16).w = 16 from rfl,
    diffBytesI5, rectsI5val]
  rfl

/-- Claim C3: the counterexample to the claim as stated: comparing a
16x16 white baseline against the same image with a single altered 5x5
patch draws a rectangle (the rectangle list is not empty), although the
claim requires that a 5x5 patch (contour area 25 ≤ 40) produce none.
The SSIM window dilates the changed region to 11x11, whose contour area
is 100 > 40. -/
theorem C3_counterexample :
    rectsOfRun (compareRun fsMain "base16.png" "cur5.png" thDefault none) ≠ some [] := by
  rw [rectsRunI5]
  intro h
  simp at h

/-- Claim C3 (amended): the area filter is as described — a rectangle is
drawn exactly for the external contours of the binary mask whose area
strictly exceeds 40 — but the patch-size consequence must account for
the 7x7 SSIM window dilating each changed region: a single altered 5x5
patch in a 16x16 image produces exactly one rectangle, (2, 2, 11, 11). -/
theorem C3_areaFilter :
    (∀ (rows : List (List ℕ)) (r : Rect), r ∈ rectsFromBytes rows ↔
      ∃ c ∈ findContours (threshBinaryInv rows (otsuThreshold rows.flatten)),
        Rat.divInt 40 1 < contourArea c ∧ r = boundingRect c) ∧
    rectsOfRun (compareRun fsMain "base16.png" "cur5.png" thDefault none)
      = some [(2, 2, 11, 11)] :=
  ⟨rectsFromBytes_mem, rectsRunI5⟩
